import Mathlib

/-! The `sort` plugin: callback slots of the unit-list widgets.

A shallow embedding of `plugins/sort.cpp`.

* Pointers to units are natural numbers, `0` being the null pointer.
* A `std::function` slot of a widget is a value of `filter_fn`: one of the three
  callbacks of this plugin, or a slot of another component, named by a number.  What
  such a foreign slot does when it is invoked is given by the host environment
  (`host_env.foreign`): it answers a boolean and may change the process-wide state.
* The process-wide state (`plugin_state`) holds the two static flags of the plugin and
  the trace of the calls made into the scripting layer.
* `int32_t` indices are integers; widget sequences are far shorter than `2 ^ 31`
  entries, so no index leaves the range of `int32_t`.
* The specification requires that no filter callback starts a probe of its own while it
  is invoked; for a foreign slot this is the hypothesis `foreign_keeps_probing`.  A
  foreign slot that leaves both flags alone satisfies `foreign_keeps_flags`.
* Logging (`TRACE`, `DEBUG`) and the `color_ostream` arguments have no effect on the
  state and are left out.
-/

namespace SortPlugin

/-- The type `item_or_unit`, a `std::pair<void *, bool>`: `second` marks a row that is
not a unit. -/
structure item_or_unit where
  first : Nat
  second : Bool
deriving DecidableEq, Repr

/-- One call of `Lua::CallLuaModuleFunction`: module, function and the unit pointers
handed over. -/
structure lua_call where
  module_name : String
  fn_name : String
  args : List Nat
deriving DecidableEq, Repr

/-- The process-wide mutable state: the static flags `probing` and `probe_result`, and
the trace of the calls into the scripting layer made so far. -/
structure plugin_state where
  probing : Bool
  probe_result : Bool
  lua_calls : List lua_call
deriving DecidableEq, Repr

/-- An element of `filter_vec_type`: a callback of this plugin or a slot installed by
another component. -/
inductive filter_fn where
  | squad
  | justice
  | work_animal
  | foreign (id : Nat)
deriving DecidableEq, Repr

/-- What lies outside the plugin: the answer of the scripting layer to a call (`none`
when the call fails and the result callback is not run), and the behaviour of the
foreign filter slots. -/
structure host_env where
  lua : String → String → List Nat → Option Bool
  foreign : Nat → item_or_unit → plugin_state → Bool × plugin_state

/-- The comparator held by a sort entry: `sort_proxy` or a comparator of the host. -/
inductive sort_fn where
  | sort_proxy
  | foreign (id : Nat)
deriving DecidableEq, Repr

/-- The struct `sort_entry`. -/
structure sort_entry where
  fn : sort_fn
  ident : String
deriving DecidableEq, Repr

/-- The bits of `sort_flags`: `NEEDS_RESORTED` and the remaining bits. -/
structure sort_flags_bits where
  NEEDS_RESORTED : Bool
  rest : Nat
deriving DecidableEq, Repr

/-- The fields of `df::widget_unit_list` that the plugin reads or writes. -/
structure widget_unit_list where
  filter_func : List filter_fn
  partitions : List filter_fn
  sorting_by : List sort_entry
  sort_flags : sort_flags_bits
deriving DecidableEq, Repr

/-- The results of the widget lookups (`Gui::getWidget` with `virtual_cast`, which are
outside this file): for each of the six paths the widget found there, or `none` for a
null pointer. -/
structure ui_state where
  unit_selector : Option widget_unit_list
  open_cases_interrogate : Option widget_unit_list
  cold_cases_interrogate : Option widget_unit_list
  open_cases_convict : Option widget_unit_list
  cold_cases_convict : Option widget_unit_list
  hunting_assignment : Option widget_unit_list
deriving DecidableEq, Repr

def DFHACK_SORT_IDENT : String := "dfhack_sort"

/-- Modelled from the spec: `vector_erase_at` (declared in `MiscUtils.h`) erases the
element at `idx` when `idx` is in range and does nothing otherwise. -/
def vector_erase_at {α : Type} (vec : List α) (idx : Nat) : List α :=
  if idx < vec.length then vec.eraseIdx idx else vec

/-! ## Filter logic -/

/-- The function `do_filter`: the answer and the state it leaves.  A call into the
scripting layer is appended to the trace; `ret` keeps its initial `true` when the call
fails. -/
def do_filter (env : host_env) (module_name fn_name : String) (elem : item_or_unit)
    (s : plugin_state) : Bool × plugin_state :=
  if elem.second then (true, s)
  else
    let unit := elem.first
    if s.probing then
      (false, { s with probe_result := true })
    else
      let ret : Bool :=
        match env.lua module_name fn_name [unit] with
        | some b => b
        | none => true
      (!ret, { s with lua_calls := s.lua_calls ++ [⟨module_name, fn_name, [unit]⟩] })

def do_squad_filter (env : host_env) (elem : item_or_unit) (s : plugin_state) :
    Bool × plugin_state :=
  do_filter env "plugins.sort" "do_squad_filter" elem s

def do_justice_filter (env : host_env) (elem : item_or_unit) (s : plugin_state) :
    Bool × plugin_state :=
  do_filter env "plugins.sort.info" "do_justice_filter" elem s

def do_work_animal_assignment_filter (env : host_env) (elem : item_or_unit)
    (s : plugin_state) : Bool × plugin_state :=
  do_filter env "plugins.sort.info" "do_work_animal_assignment_filter" elem s

/-- Invoking a slot `fn(elem)`. -/
def call_filter (env : host_env) (fn : filter_fn) (elem : item_or_unit)
    (s : plugin_state) : Bool × plugin_state :=
  match fn with
  | .squad => do_squad_filter env elem s
  | .justice => do_justice_filter env elem s
  | .work_animal => do_work_animal_assignment_filter env elem s
  | .foreign id => env.foreign id elem s

/-- The loop of `our_filter_idx` over the remaining slots, `idx` being the counter. -/
def probe_loop (env : host_env) (u : Nat) :
    List filter_fn → Int → plugin_state → Int × plugin_state
  | [], idx, s => (idx, s)
  | fn :: rest, idx, s =>
    let s1 := (call_filter env fn ⟨u, false⟩ s).2
    if s1.probe_result then (idx, s1)
    else probe_loop env u rest (idx + 1) s1

/-- The function `our_filter_idx`; `active` is `world->units.active`.  The two early
exits `return true` yield `1` in the `int32_t` result. -/
def our_filter_idx (env : host_env) (active : List Nat) (unitlist : widget_unit_list)
    (s : plugin_state) : Int × plugin_state :=
  match active with
  | [] => (1, s)
  | u :: _ =>
    if u = 0 then (1, s)
    else
      let s0 : plugin_state := { s with probing := true, probe_result := false }
      let r := probe_loop env u unitlist.filter_func 0 s0
      let s2 : plugin_state := { r.2 with probing := false }
      (if s2.probe_result then r.1 else -1, s2)

/-- The lookup of the widget "Unit selector". -/
def get_squad_unit_list (ui : ui_state) : Option widget_unit_list :=
  ui.unit_selector

/-- The lookup of "Interrogate" in the right panel of the justice tab named `which`; the
tabs are "Open cases" and "Cold cases", and any other name finds nothing. -/
def get_interrogate_unit_list (ui : ui_state) (which : String) :
    Option widget_unit_list :=
  if which = "Open cases" then ui.open_cases_interrogate
  else if which = "Cold cases" then ui.cold_cases_interrogate
  else none

/-- The lookup of "Convict" in the right panel of the justice tab named `which`. -/
def get_convict_unit_list (ui : ui_state) (which : String) : Option widget_unit_list :=
  if which = "Open cases" then ui.open_cases_convict
  else if which = "Cold cases" then ui.cold_cases_convict
  else none

/-- The lookup of "Hunting assignment" in the tab "Pets/Livestock". -/
def get_work_animal_assignment_unit_list (ui : ui_state) : Option widget_unit_list :=
  ui.hunting_assignment

/-! ## Sorting logic -/

/-- The function `sort_proxy`, with the call into the scripting layer as in
`do_filter`. -/
def sort_proxy (env : host_env) (a b : item_or_unit) (s : plugin_state) :
    Bool × plugin_state :=
  if a.second || b.second then (true, s)
  else
    let ret : Bool :=
      match env.lua "plugins.sort" "do_sort" [a.first, b.first] with
      | some r => r
      | none => true
    (ret, { s with lua_calls :=
      s.lua_calls ++ [⟨"plugins.sort", "do_sort", [a.first, b.first]⟩] })

def do_sort : sort_entry := ⟨sort_fn.sort_proxy, DFHACK_SORT_IDENT⟩

/-- The loop of `our_sort_idx` from index `i` on, over the entries not yet visited.  The
result `(int32_t)i` is the index itself, the sequences being shorter than `2 ^ 31`. -/
def our_sort_idx_from : List sort_entry → Nat → Int
  | [], _ => -1
  | e :: rest, i =>
    if e.ident = DFHACK_SORT_IDENT then (i : Int)
    else our_sort_idx_from rest (i + 1)

def our_sort_idx (sorting_by : List sort_entry) : Int :=
  our_sort_idx_from sorting_by 0

/-! ## Plugin logic -/

/-- The function `remove_filter_function` on the widget `unitlist` points to; the index
is handed to `vector_erase_at` as an `unsigned`, which it fits when it is not
negative. -/
def remove_filter_function (env : host_env) (active : List Nat)
    (unitlist : widget_unit_list) (s : plugin_state) :
    widget_unit_list × plugin_state :=
  let r := our_filter_idx env active unitlist s
  if r.1 ≥ 0 then
    ({ unitlist with filter_func := vector_erase_at unitlist.filter_func r.1.toNat }, r.2)
  else (unitlist, r.2)

def remove_sort_function (unitlist : widget_unit_list) : widget_unit_list :=
  let idx := our_sort_idx unitlist.sorting_by
  if idx ≥ 0 then
    { unitlist with sorting_by := vector_erase_at unitlist.sorting_by idx.toNat }
  else unitlist

/-- One `if (auto unitlist = ...) remove_filter_function(...)` of `plugin_shutdown`:
a null pointer is skipped. -/
def shutdown_filter (env : host_env) (active : List Nat)
    (unitlist : Option widget_unit_list) (s : plugin_state) :
    Option widget_unit_list × plugin_state :=
  match unitlist with
  | none => (none, s)
  | some w =>
    let r := remove_filter_function env active w s
    (some r.1, r.2)

/-- The result codes of a plugin entry point. -/
inductive command_result where
  | CR_OK
  | CR_FAILURE
deriving DecidableEq, Repr

def plugin_shutdown (env : host_env) (active : List Nat) (ui : ui_state)
    (s : plugin_state) : command_result × ui_state × plugin_state :=
  let r1 : Option widget_unit_list × plugin_state :=
    match get_squad_unit_list ui with
    | none => (none, s)
    | some unitlist =>
      let r := remove_filter_function env active unitlist s
      (some (remove_sort_function r.1), r.2)
  let r2 := shutdown_filter env active (get_interrogate_unit_list ui "Open cases") r1.2
  let r3 := shutdown_filter env active (get_interrogate_unit_list ui "Cold cases") r2.2
  let r4 := shutdown_filter env active (get_convict_unit_list ui "Open cases") r3.2
  let r5 := shutdown_filter env active (get_convict_unit_list ui "Cold cases") r4.2
  let r6 := shutdown_filter env active (get_work_animal_assignment_unit_list ui) r5.2
  (command_result.CR_OK,
    { unit_selector := r1.1,
      open_cases_interrogate := r2.1,
      cold_cases_interrogate := r3.1,
      open_cases_convict := r4.1,
      cold_cases_convict := r5.1,
      hunting_assignment := r6.1 },
    r6.2)

/-! ## Lua API -/

def sort_set_squad_filter_fn (env : host_env) (active : List Nat) (ui : ui_state)
    (s : plugin_state) : ui_state × plugin_state :=
  match get_squad_unit_list ui with
  | none => (ui, s)
  | some unitlist =>
    let r := our_filter_idx env active unitlist s
    if r.1 = -1 then
      let w : widget_unit_list :=
        { unitlist with
          filter_func := unitlist.filter_func ++ [filter_fn.squad],
          partitions := [],
          sort_flags := { unitlist.sort_flags with NEEDS_RESORTED := true } }
      ({ ui with unit_selector := some w }, r.2)
    else (ui, r.2)

/-- The function `sort_set_justice_filter_fn`; the pointer argument is `none` when null,
and the widget it points to is returned as the call leaves it. -/
def sort_set_justice_filter_fn (env : host_env) (active : List Nat)
    (unitlist : Option widget_unit_list) (s : plugin_state) :
    Option widget_unit_list × plugin_state :=
  match unitlist with
  | none => (none, s)
  | some w =>
    let r := our_filter_idx env active w s
    if r.1 = -1 then
      (some { w with
          filter_func := w.filter_func ++ [filter_fn.justice],
          sort_flags := { w.sort_flags with NEEDS_RESORTED := true } }, r.2)
    else (some w, r.2)

/-- The function `sort_set_work_animal_assignment_filter_fn`, with the pointer argument
as in `sort_set_justice_filter_fn`. -/
def sort_set_work_animal_assignment_filter_fn (env : host_env) (active : List Nat)
    (unitlist : Option widget_unit_list) (s : plugin_state) :
    Option widget_unit_list × plugin_state :=
  match unitlist with
  | none => (none, s)
  | some w =>
    let r := our_filter_idx env active w s
    if r.1 = -1 then
      (some { w with
          filter_func := w.filter_func ++ [filter_fn.work_animal],
          sort_flags := { w.sort_flags with NEEDS_RESORTED := true } }, r.2)
    else (some w, r.2)

def sort_set_sort_fn (ui : ui_state) : ui_state :=
  match get_squad_unit_list ui with
  | none => ui
  | some unitlist =>
    let w : widget_unit_list :=
      { unitlist with
        sorting_by := [do_sort],
        sort_flags := { unitlist.sort_flags with NEEDS_RESORTED := true } }
    { ui with unit_selector := some w }

def sort_get_sort_active (ui : ui_state) : Bool :=
  match get_squad_unit_list ui with
  | none => false
  | some unitlist => decide (our_sort_idx unitlist.sorting_by ≥ 0)

/-! ## Vocabulary of the statements -/

/-- Whether a slot is one of the three filter callbacks of this plugin. -/
def is_ours : filter_fn → Bool
  | .foreign _ => false
  | _ => true

/-- The foreign slots leave the flags `probing` and `probe_result` as they find them. -/
def foreign_keeps_flags (env : host_env) : Prop :=
  ∀ (id : Nat) (elem : item_or_unit) (s : plugin_state),
    (env.foreign id elem s).2.probing = s.probing ∧
    (env.foreign id elem s).2.probe_result = s.probe_result

/-- A host in which the scripting layer answers `true` to every call and the foreign
slots keep every row and change nothing. -/
def quiet_env : host_env :=
  ⟨fun _ _ _ => some true, fun _ _ s => (true, s)⟩

/-- The state of a freshly loaded plugin. -/
def idle_state : plugin_state := ⟨false, false, []⟩

/-- A widget that holds the given filter slots and nothing else. -/
def widget_of (fs : List filter_fn) : widget_unit_list :=
  ⟨fs, [], [], ⟨false, 0⟩⟩

/-- An interface in which no unit-list widget is open. -/
def no_widgets : ui_state := ⟨none, none, none, none, none, none⟩

/-- The six places where `plugin_shutdown` looks for a unit-list widget. -/
inductive widget_path where
  | unit_selector
  | open_cases_interrogate
  | cold_cases_interrogate
  | open_cases_convict
  | cold_cases_convict
  | hunting_assignment
deriving DecidableEq, Repr

/-- The widget found at a path. -/
def ui_state.get (ui : ui_state) : widget_path → Option widget_unit_list
  | .unit_selector => ui.unit_selector
  | .open_cases_interrogate => ui.open_cases_interrogate
  | .cold_cases_interrogate => ui.cold_cases_interrogate
  | .open_cases_convict => ui.open_cases_convict
  | .cold_cases_convict => ui.cold_cases_convict
  | .hunting_assignment => ui.hunting_assignment

/-- The interface with the widget at a path replaced. -/
def ui_state.set (ui : ui_state) (p : widget_path) (w : Option widget_unit_list) :
    ui_state :=
  match p with
  | .unit_selector => { ui with unit_selector := w }
  | .open_cases_interrogate => { ui with open_cases_interrogate := w }
  | .cold_cases_interrogate => { ui with cold_cases_interrogate := w }
  | .open_cases_convict => { ui with open_cases_convict := w }
  | .cold_cases_convict => { ui with cold_cases_convict := w }
  | .hunting_assignment => { ui with hunting_assignment := w }

/-- An interface in which the squad list alone is open. -/
def squad_only (w : widget_unit_list) : ui_state :=
  ⟨some w, none, none, none, none, none⟩

/-- The filter sequence with its first slot of this plugin taken out. -/
def without_first_ours (fs : List filter_fn) : List filter_fn :=
  if fs.any is_ours then fs.eraseIdx (fs.findIdx is_ours) else fs

/-- The foreign slots leave `probing` as they find it: none of them starts a probe of its
own while it is invoked. -/
def foreign_keeps_probing (env : host_env) : Prop :=
  ∀ (id : Nat) (elem : item_or_unit) (s : plugin_state),
    (env.foreign id elem s).2.probing = s.probing

/-- The running process: the widgets of the interface, `world->units.active`, and the
state of the plugin. -/
structure process where
  ui : ui_state
  active : List Nat
  plugin : plugin_state

/-- An event in the life of the process: a call of one of the three filter installs (the
justice and work-animal installs are handed the widget at a path, null when none is
open there), a call of `remove_filter_function` on the widget at a path, or a change of
the active units. -/
inductive api_call where
  | set_squad_filter_fn
  | set_justice_filter_fn (unitlist : widget_path)
  | set_work_animal_assignment_filter_fn (unitlist : widget_path)
  | remove_filter (unitlist : widget_path)
  | active_units (active : List Nat)

/-- The process after one event. -/
def step (env : host_env) (st : process) : api_call → process
  | .set_squad_filter_fn =>
    let r := sort_set_squad_filter_fn env st.active st.ui st.plugin
    { st with ui := r.1, plugin := r.2 }
  | .set_justice_filter_fn p =>
    let r := sort_set_justice_filter_fn env st.active (st.ui.get p) st.plugin
    { st with ui := st.ui.set p r.1, plugin := r.2 }
  | .set_work_animal_assignment_filter_fn p =>
    let r := sort_set_work_animal_assignment_filter_fn env st.active (st.ui.get p) st.plugin
    { st with ui := st.ui.set p r.1, plugin := r.2 }
  | .remove_filter p =>
    match st.ui.get p with
    | none => st
    | some w =>
      let r := remove_filter_function env st.active w st.plugin
      { st with ui := st.ui.set p (some r.1), plugin := r.2 }
  | .active_units active => { st with active := active }

/-- The process after a sequence of events. -/
def run (env : host_env) (st : process) (calls : List api_call) : process :=
  calls.foldl (step env) st

/-- Every open widget holds at most one filter callback of this plugin. -/
def at_most_one_ours (ui : ui_state) : Prop :=
  ∀ (p : widget_path) (w : widget_unit_list),
    ui.get p = some w → w.filter_func.countP is_ours ≤ 1

/-- A host in which every foreign slot starts a probe of its own that finds nothing, and
so returns with `probing` and `probe_result` cleared; the scripting layer answers `true`
to every call. -/
def reentrant_env : host_env :=
  ⟨fun _ _ _ => some true,
   fun _ _ s => (true, { s with probing := false, probe_result := false })⟩

/-- A host in which the scripting layer answers `false` to every call and the foreign
slots with an even number drop every row. -/
def picky_env : host_env :=
  ⟨fun _ _ _ => some false, fun id _ s => (decide (id % 2 = 1), s)⟩

/-- The contract of the sort direction in the words of the specification: if either
argument is the sentinel the answer is `true`; otherwise both units are forwarded to the
one external comparison predicate and its answer is returned verbatim. -/
def sort_proxy_reference (compare : Nat → Nat → Bool) (a b : item_or_unit) : Bool :=
  if a.second = true ∨ b.second = true then true else compare a.first b.first

/-- A sort entry of the host, with a comparator and a tag of its own. -/
def host_sort_entry (id : Nat) : sort_entry :=
  ⟨sort_fn.foreign id, "host"⟩

/-- Whether a sort entry carries the tag of this plugin. -/
def is_tagged (e : sort_entry) : Bool :=
  decide (e.ident = DFHACK_SORT_IDENT)

/-- A widget that holds the given sort entries and nothing else. -/
def widget_sorting (es : List sort_entry) : widget_unit_list :=
  ⟨[], [], es, ⟨false, 0⟩⟩

/-- The invocations made by the loop of `our_filter_idx`, in order: each slot that is
invoked, with the state in which it is invoked.  The loop stops after the invocation
that leaves `probe_result` set. -/
def probe_calls (env : host_env) (u : Nat) :
    List filter_fn → plugin_state → List (filter_fn × plugin_state)
  | [], _ => []
  | fn :: rest, s =>
    let s1 := (call_filter env fn ⟨u, false⟩ s).2
    (fn, s) :: (if s1.probe_result then [] else probe_calls env u rest s1)

/-- The invocations of filter slots made by a call of `our_filter_idx`: none when the
call leaves through one of its early exits, those of the loop otherwise. -/
def our_filter_idx_calls (env : host_env) (active : List Nat)
    (unitlist : widget_unit_list) (s : plugin_state) : List (filter_fn × plugin_state) :=
  match active with
  | [] => []
  | u :: _ =>
    if u = 0 then []
    else probe_calls env u unitlist.filter_func
      { s with probing := true, probe_result := false }

/-! ## The probe -/

theorem quiet_env_keeps_flags : foreign_keeps_flags quiet_env :=
  fun _ _ _ => ⟨rfl, rfl⟩

theorem call_filter_ours_probing (env : host_env) (fn : filter_fn) (u : Nat)
    (s : plugin_state) (hfn : is_ours fn = true) (hp : s.probing = true) :
    call_filter env fn ⟨u, false⟩ s = (false, { s with probe_result := true }) := by
  cases fn <;>
    simp_all [is_ours, call_filter, do_squad_filter, do_justice_filter,
      do_work_animal_assignment_filter, do_filter]

theorem call_filter_foreign (env : host_env) (fn : filter_fn) (elem : item_or_unit)
    (s : plugin_state) (hf : foreign_keeps_flags env) (hfn : is_ours fn = false) :
    (call_filter env fn elem s).2.probing = s.probing ∧
    (call_filter env fn elem s).2.probe_result = s.probe_result := by
  cases fn with
  | foreign id => exact hf id elem s
  | squad => simp [is_ours] at hfn
  | justice => simp [is_ours] at hfn
  | work_animal => simp [is_ours] at hfn

/-- The loop of the probe, started in the probing state with no result yet, stops at the
first slot of this plugin: the counter advances by the position of that slot (by the
length of the sequence when there is none), and `probe_result` tells whether one was
met. -/
theorem probe_loop_spec (env : host_env) (hf : foreign_keeps_flags env) (u : Nat) :
    ∀ (fs : List filter_fn) (idx : Int) (s : plugin_state),
      s.probing = true → s.probe_result = false →
      (probe_loop env u fs idx s).1 = idx + (fs.findIdx is_ours : Nat) ∧
      (probe_loop env u fs idx s).2.probing = true ∧
      (probe_loop env u fs idx s).2.probe_result = fs.any is_ours := by
  intro fs
  induction fs with
  | nil => intro idx s hp hr; simp [probe_loop, hp, hr]
  | cons fn rest ih =>
    intro idx s hp hr
    cases hfn : is_ours fn with
    | true =>
      have hc := call_filter_ours_probing env fn u s hfn hp
      simp [probe_loop, hc, List.findIdx_cons, hfn, hp]
    | false =>
      obtain ⟨h1, h2⟩ := call_filter_foreign env fn ⟨u, false⟩ s hf hfn
      have h2' : (call_filter env fn ⟨u, false⟩ s).2.probe_result = false := by
        rw [h2, hr]
      obtain ⟨i1, i2, i3⟩ := ih (idx + 1) _ (h1.trans hp) h2'
      simp only [probe_loop, h2', Bool.false_eq_true, if_false, List.findIdx_cons, hfn,
        List.any_cons, Bool.false_or, cond_false]
      refine ⟨?_, i2, i3⟩
      rw [i1]; push_cast; ring

/-- The answer of `our_filter_idx` when the first active unit is not null and the
foreign slots keep the flags: the position of the first slot of this plugin, or `-1`
when there is none; the probe ends with `probing` cleared. -/
theorem our_filter_idx_spec (env : host_env) (hf : foreign_keeps_flags env)
    (u : Nat) (rest : List Nat) (hu : u ≠ 0) (w : widget_unit_list) (s : plugin_state) :
    (our_filter_idx env (u :: rest) w s).1 =
      (if w.filter_func.any is_ours then ((w.filter_func.findIdx is_ours : Nat) : Int)
       else -1) ∧
    (our_filter_idx env (u :: rest) w s).2.probing = false ∧
    (our_filter_idx env (u :: rest) w s).2.probe_result = w.filter_func.any is_ours := by
  obtain ⟨h1, _, h3⟩ := probe_loop_spec env hf u w.filter_func 0
    { s with probing := true, probe_result := false } rfl rfl
  simp only [our_filter_idx, if_neg hu, h3, h1]
  simp

/-- Without a first active unit that is not null, `our_filter_idx` answers `1` and
leaves the state alone. -/
theorem our_filter_idx_no_unit (env : host_env) (active : List Nat)
    (h : active.head? = none ∨ active.head? = some 0) (w : widget_unit_list)
    (s : plugin_state) : our_filter_idx env active w s = (1, s) := by
  cases active with
  | nil => rfl
  | cons u rest =>
    have hu : u = 0 := by simpa using h
    simp [our_filter_idx, hu]

/-! ## Removal -/

theorem vector_erase_at_sublist {α : Type} (vec : List α) (idx : Nat) :
    (vector_erase_at vec idx).Sublist vec := by
  unfold vector_erase_at
  split
  · exact List.eraseIdx_sublist vec idx
  · exact List.Sublist.refl vec

theorem findIdx_lt_of_any (fs : List filter_fn) (h : fs.any is_ours = true) :
    fs.findIdx is_ours < fs.length := by
  apply List.findIdx_lt_length_of_exists
  simpa using h

/-- With a first active unit that is not null and foreign slots that keep the flags,
`remove_filter_function` takes out the first slot of this plugin and nothing else. -/
theorem remove_filter_function_fst (env : host_env) (hf : foreign_keeps_flags env)
    (u : Nat) (rest : List Nat) (hu : u ≠ 0) (w : widget_unit_list) (s : plugin_state) :
    (remove_filter_function env (u :: rest) w s).1 =
      { w with filter_func := without_first_ours w.filter_func } := by
  obtain ⟨h1, _, _⟩ := our_filter_idx_spec env hf u rest hu w s
  unfold remove_filter_function without_first_ours
  simp only [h1]
  cases hany : w.filter_func.any is_ours with
  | true =>
    have hlt := findIdx_lt_of_any w.filter_func hany
    simp [vector_erase_at, hlt]
  | false => simp

theorem without_first_ours_append (fs : List filter_fn) (fn : filter_fn)
    (hfs : ∀ x ∈ fs, is_ours x = false) (hfn : is_ours fn = true) :
    without_first_ours (fs ++ [fn]) = fs := by
  have hidx : (fs ++ [fn]).findIdx is_ours = fs.length := by
    rw [List.findIdx_append, List.findIdx_eq_length_of_false hfs]
    simp [List.findIdx_cons, hfn]
  have hany : (fs ++ [fn]).any is_ours = true := by simp [hfn]
  unfold without_first_ours
  rw [if_pos hany, hidx, List.eraseIdx_append_of_length_le (Nat.le_refl _)]
  simp

theorem without_first_ours_of_none (fs : List filter_fn)
    (hfs : ∀ x ∈ fs, is_ours x = false) : without_first_ours fs = fs := by
  have hany : fs.any is_ours = false := by
    simpa [List.any_eq_false] using hfs
  simp [without_first_ours, hany]

/-! ## Installing a filter -/

theorem our_filter_idx_of_none (env : host_env) (hf : foreign_keeps_flags env)
    (u : Nat) (rest : List Nat) (hu : u ≠ 0) (w : widget_unit_list) (s : plugin_state)
    (hw : ∀ fn ∈ w.filter_func, is_ours fn = false) :
    (our_filter_idx env (u :: rest) w s).1 = -1 := by
  have hany : w.filter_func.any is_ours = false := by
    simpa [List.any_eq_false] using hw
  rw [(our_filter_idx_spec env hf u rest hu w s).1, hany]
  simp

theorem our_filter_idx_of_any (env : host_env) (hf : foreign_keeps_flags env)
    (u : Nat) (rest : List Nat) (hu : u ≠ 0) (w : widget_unit_list) (s : plugin_state)
    (hw : w.filter_func.any is_ours = true) :
    (our_filter_idx env (u :: rest) w s).1 = (w.filter_func.findIdx is_ours : Nat) := by
  rw [(our_filter_idx_spec env hf u rest hu w s).1, hw]
  simp

theorem our_filter_idx_ne_of_any (env : host_env) (hf : foreign_keeps_flags env)
    (u : Nat) (rest : List Nat) (hu : u ≠ 0) (w : widget_unit_list) (s : plugin_state)
    (hw : w.filter_func.any is_ours = true) :
    (our_filter_idx env (u :: rest) w s).1 ≠ -1 := by
  rw [our_filter_idx_of_any env hf u rest hu w s hw]
  omega

theorem findIdx_append_ours (fs : List filter_fn) (fn : filter_fn)
    (hfs : ∀ x ∈ fs, is_ours x = false) (hfn : is_ours fn = true) :
    (fs ++ [fn]).findIdx is_ours = fs.length := by
  rw [List.findIdx_append, List.findIdx_eq_length_of_false hfs]
  simp [List.findIdx_cons, hfn]

theorem countP_of_none (fs : List filter_fn) (hfs : ∀ x ∈ fs, is_ours x = false) :
    fs.countP is_ours = 0 := by
  rw [List.countP_eq_zero]
  intro a ha
  simp [hfs a ha]

/-- C1: without a first active unit that is not null (`active` empty, or its first
entry null) `remove_filter_function` takes `1` for the index of a found slot and erases
the second slot of the sequence, here a foreign one. -/
theorem remove_filter_function_erases_foreign_slot :
    (remove_filter_function quiet_env []
        (widget_of [filter_fn.foreign 0, filter_fn.foreign 1]) idle_state).1.filter_func
      = [filter_fn.foreign 0] ∧
    (remove_filter_function quiet_env [0]
        (widget_of [filter_fn.foreign 0, filter_fn.foreign 1]) idle_state).1.filter_func
      = [filter_fn.foreign 0] := by
  decide

/-- C2, as stated, fails: with the active units `[0, 7]` there is an active unit that is
not null, the sequence holds foreign slots only, and yet each of the three installs
leaves the widget as it was, with nothing appended and the resort flag not set. -/
theorem filter_install_skipped_when_first_unit_null :
    (∃ u ∈ [0, 7], u ≠ 0) ∧
    (∀ fn ∈ (widget_of [filter_fn.foreign 0]).filter_func, is_ours fn = false) ∧
    foreign_keeps_flags quiet_env ∧
    (sort_set_squad_filter_fn quiet_env [0, 7]
        (squad_only (widget_of [filter_fn.foreign 0]))
        idle_state).1.unit_selector = some (widget_of [filter_fn.foreign 0]) ∧
    (sort_set_justice_filter_fn quiet_env [0, 7]
        (some (widget_of [filter_fn.foreign 0])) idle_state).1
      = some (widget_of [filter_fn.foreign 0]) ∧
    (sort_set_work_animal_assignment_filter_fn quiet_env [0, 7]
        (some (widget_of [filter_fn.foreign 0])) idle_state).1
      = some (widget_of [filter_fn.foreign 0]) ∧
    (widget_of [filter_fn.foreign 0]).sort_flags.NEEDS_RESORTED = false :=
  ⟨by decide, by decide, quiet_env_keeps_flags, by decide, by decide, by decide, rfl⟩

/-- C2, amended: when the first active unit is not null, the foreign slots keep the probe
flags and the filter sequence of the widget holds none of the callbacks of this plugin,
each of the three installs appends its callback at the end of the old sequence and sets
`NEEDS_RESORTED` (the squad install also clears the partitions); the new sequence holds
exactly one callback of this plugin, and the probe finds it at the old length. -/
theorem filter_install_appends_callback (env : host_env) (u : Nat) (rest : List Nat)
    (ui : ui_state) (w : widget_unit_list) (s : plugin_state)
    (hf : foreign_keeps_flags env) (hu : u ≠ 0)
    (hw : ∀ fn ∈ w.filter_func, is_ours fn = false) :
    (ui.unit_selector = some w →
      (sort_set_squad_filter_fn env (u :: rest) ui s).1 =
        ui.set widget_path.unit_selector
          (some { filter_func := w.filter_func ++ [filter_fn.squad],
                  partitions := [],
                  sorting_by := w.sorting_by,
                  sort_flags := ⟨true, w.sort_flags.rest⟩ })) ∧
    (sort_set_justice_filter_fn env (u :: rest) (some w) s).1 =
      some { filter_func := w.filter_func ++ [filter_fn.justice],
             partitions := w.partitions,
             sorting_by := w.sorting_by,
             sort_flags := ⟨true, w.sort_flags.rest⟩ } ∧
    (sort_set_work_animal_assignment_filter_fn env (u :: rest) (some w) s).1 =
      some { filter_func := w.filter_func ++ [filter_fn.work_animal],
             partitions := w.partitions,
             sorting_by := w.sorting_by,
             sort_flags := ⟨true, w.sort_flags.rest⟩ } ∧
    (∀ fn : filter_fn, is_ours fn = true →
      (w.filter_func ++ [fn]).countP is_ours = 1 ∧
      ∀ (w1 : widget_unit_list) (s1 : plugin_state),
        w1.filter_func = w.filter_func ++ [fn] →
        (our_filter_idx env (u :: rest) w1 s1).1 = (w.filter_func.length : Int)) := by
  have hidx := our_filter_idx_of_none env hf u rest hu w s hw
  refine ⟨?_, ?_, ?_, ?_⟩
  · intro hsel
    simp [sort_set_squad_filter_fn, get_squad_unit_list, hsel, hidx, ui_state.set]
  · simp [sort_set_justice_filter_fn, hidx]
  · simp [sort_set_work_animal_assignment_filter_fn, hidx]
  · intro fn hfn
    refine ⟨?_, ?_⟩
    · rw [List.countP_append, countP_of_none _ hw]
      simp [hfn]
    · intro w1 s1 hw1
      have hany : w1.filter_func.any is_ours = true := by simp [hw1, hfn]
      rw [our_filter_idx_of_any env hf u rest hu w1 s1 hany, hw1,
        findIdx_append_ours _ _ hw hfn]

theorem filter_install_appends_callback_witness :
    (sort_set_squad_filter_fn quiet_env [7]
        (squad_only (widget_of [filter_fn.foreign 0, filter_fn.foreign 1]))
        idle_state).1.unit_selector =
      some { filter_func := [filter_fn.foreign 0, filter_fn.foreign 1, filter_fn.squad],
             partitions := [],
             sorting_by := [],
             sort_flags := ⟨true, 0⟩ } :=
  congrArg ui_state.unit_selector
    ((filter_install_appends_callback quiet_env 7 []
      (squad_only (widget_of [filter_fn.foreign 0, filter_fn.foreign 1]))
      (widget_of [filter_fn.foreign 0, filter_fn.foreign 1]) idle_state
      quiet_env_keeps_flags (by decide) (by decide)).1 rfl)

/-! ## Shutdown after an install -/

theorem shutdown_filter_fst (env : host_env) (hf : foreign_keeps_flags env)
    (u : Nat) (rest : List Nat) (hu : u ≠ 0) (o : Option widget_unit_list)
    (s : plugin_state) :
    (shutdown_filter env (u :: rest) o s).1 =
      o.map (fun w => { w with filter_func := without_first_ours w.filter_func }) := by
  cases o with
  | none => rfl
  | some w => simp [shutdown_filter, remove_filter_function_fst env hf u rest hu]

theorem remove_sort_function_filter_func (w : widget_unit_list) :
    (remove_sort_function w).filter_func = w.filter_func := by
  simp only [remove_sort_function]
  split <;> rfl

/-- With a first active unit that is not null and foreign slots that keep the flags,
`plugin_shutdown` leaves at each of the six paths the filter sequence found there
without its first slot of this plugin. -/
theorem plugin_shutdown_filter_func (env : host_env) (hf : foreign_keeps_flags env)
    (u : Nat) (rest : List Nat) (hu : u ≠ 0) (ui : ui_state) (s : plugin_state)
    (p : widget_path) :
    ((plugin_shutdown env (u :: rest) ui s).2.1.get p).map widget_unit_list.filter_func =
      (ui.get p).map (fun w => without_first_ours w.filter_func) := by
  cases p
  · simp only [plugin_shutdown, ui_state.get, get_squad_unit_list]
    cases hsel : ui.unit_selector with
    | none => rfl
    | some w =>
      simp [remove_sort_function_filter_func, remove_filter_function_fst env hf u rest hu]
  all_goals
    simp only [plugin_shutdown, ui_state.get, shutdown_filter_fst env hf u rest hu,
      get_interrogate_unit_list, get_convict_unit_list,
      get_work_animal_assignment_unit_list]
    simp [Option.map_map, Function.comp_def]

theorem ui_get_set (ui : ui_state) (p : widget_path) (o : Option widget_unit_list) :
    (ui.set p o).get p = o := by
  cases p <;> rfl

theorem squad_install_fst (env : host_env) (hf : foreign_keeps_flags env)
    (u : Nat) (rest : List Nat) (hu : u ≠ 0) (ui : ui_state) (w : widget_unit_list)
    (s : plugin_state) (hsel : ui.unit_selector = some w) :
    (sort_set_squad_filter_fn env (u :: rest) ui s).1 =
      if w.filter_func.any is_ours then ui
      else ui.set widget_path.unit_selector
        (some { filter_func := w.filter_func ++ [filter_fn.squad],
                partitions := [],
                sorting_by := w.sorting_by,
                sort_flags := ⟨true, w.sort_flags.rest⟩ }) := by
  cases hany : w.filter_func.any is_ours with
  | true =>
    have hne := our_filter_idx_ne_of_any env hf u rest hu w s hany
    simp [sort_set_squad_filter_fn, get_squad_unit_list, hsel, hne]
  | false =>
    have hw : ∀ fn ∈ w.filter_func, is_ours fn = false := by
      simpa [List.any_eq_false] using hany
    have hidx := our_filter_idx_of_none env hf u rest hu w s hw
    simp [sort_set_squad_filter_fn, get_squad_unit_list, hsel, hidx, ui_state.set]

theorem justice_install_fst (env : host_env) (hf : foreign_keeps_flags env)
    (u : Nat) (rest : List Nat) (hu : u ≠ 0) (w : widget_unit_list) (s : plugin_state) :
    (sort_set_justice_filter_fn env (u :: rest) (some w) s).1 =
      if w.filter_func.any is_ours then some w
      else some { filter_func := w.filter_func ++ [filter_fn.justice],
                  partitions := w.partitions,
                  sorting_by := w.sorting_by,
                  sort_flags := ⟨true, w.sort_flags.rest⟩ } := by
  cases hany : w.filter_func.any is_ours with
  | true =>
    have hne := our_filter_idx_ne_of_any env hf u rest hu w s hany
    simp [sort_set_justice_filter_fn, hne]
  | false =>
    have hw : ∀ fn ∈ w.filter_func, is_ours fn = false := by
      simpa [List.any_eq_false] using hany
    have hidx := our_filter_idx_of_none env hf u rest hu w s hw
    simp [sort_set_justice_filter_fn, hidx]

theorem work_animal_install_fst (env : host_env) (hf : foreign_keeps_flags env)
    (u : Nat) (rest : List Nat) (hu : u ≠ 0) (w : widget_unit_list) (s : plugin_state) :
    (sort_set_work_animal_assignment_filter_fn env (u :: rest) (some w) s).1 =
      if w.filter_func.any is_ours then some w
      else some { filter_func := w.filter_func ++ [filter_fn.work_animal],
                  partitions := w.partitions,
                  sorting_by := w.sorting_by,
                  sort_flags := ⟨true, w.sort_flags.rest⟩ } := by
  cases hany : w.filter_func.any is_ours with
  | true =>
    have hne := our_filter_idx_ne_of_any env hf u rest hu w s hany
    simp [sort_set_work_animal_assignment_filter_fn, hne]
  | false =>
    have hw : ∀ fn ∈ w.filter_func, is_ours fn = false := by
      simpa [List.any_eq_false] using hany
    have hidx := our_filter_idx_of_none env hf u rest hu w s hw
    simp [sort_set_work_animal_assignment_filter_fn, hidx]

theorem any_false_of_none (fs : List filter_fn) (hfs : ∀ x ∈ fs, is_ours x = false) :
    fs.any is_ours = false := by
  simpa [List.any_eq_false] using hfs

/-- C3: the code at the failing input.  With the active units `[0, 7]` there is an active
unit that is not null, and the squad list holds two foreign slots.  The install is
skipped and leaves the interface and the state as they were; `plugin_shutdown` then takes
the `1` of the early exit of `our_filter_idx` for a found index and erases the second
foreign slot, so that the sequence after the round trip is not the one before it. -/
theorem install_then_shutdown_loses_foreign_slot :
    (∃ u ∈ [0, 7], u ≠ 0) ∧
    (∀ fn ∈ [filter_fn.foreign 0, filter_fn.foreign 1], is_ours fn = false) ∧
    foreign_keeps_flags quiet_env ∧
    sort_set_squad_filter_fn quiet_env [0, 7]
        (squad_only (widget_of [filter_fn.foreign 0, filter_fn.foreign 1])) idle_state
      = (squad_only (widget_of [filter_fn.foreign 0, filter_fn.foreign 1]), idle_state) ∧
    (our_filter_idx quiet_env [0, 7]
        (widget_of [filter_fn.foreign 0, filter_fn.foreign 1]) idle_state).1 = 1 ∧
    ((plugin_shutdown quiet_env [0, 7]
        (sort_set_squad_filter_fn quiet_env [0, 7]
          (squad_only (widget_of [filter_fn.foreign 0, filter_fn.foreign 1]))
          idle_state).1
        (sort_set_squad_filter_fn quiet_env [0, 7]
          (squad_only (widget_of [filter_fn.foreign 0, filter_fn.foreign 1]))
          idle_state).2).2.1.unit_selector).map widget_unit_list.filter_func
      = some [filter_fn.foreign 0] :=
  ⟨by decide, by decide, quiet_env_keeps_flags, by decide, by decide, by decide⟩

/-- The round trip where the probe has its sentinel: when the first active unit is not
null, the foreign slots keep the probe
flags and the filter sequence of a present widget holds foreign slots only, a filter
install on that widget followed by `plugin_shutdown` leaves the filter sequence of the
widget equal to the one before the install: for the squad install on the squad list,
and for the justice and work-animal installs on the widget at any of the six paths. -/
theorem install_then_shutdown_restores_filters (env : host_env) (u : Nat)
    (rest : List Nat) (ui : ui_state) (w : widget_unit_list) (s : plugin_state)
    (hf : foreign_keeps_flags env) (hu : u ≠ 0)
    (hw : ∀ fn ∈ w.filter_func, is_ours fn = false) :
    (ui.unit_selector = some w →
      ((plugin_shutdown env (u :: rest)
          (sort_set_squad_filter_fn env (u :: rest) ui s).1
          (sort_set_squad_filter_fn env (u :: rest) ui s).2).2.1.unit_selector).map
        widget_unit_list.filter_func = some w.filter_func) ∧
    (∀ p : widget_path, ui.get p = some w →
      ((plugin_shutdown env (u :: rest)
          (ui.set p (sort_set_justice_filter_fn env (u :: rest) (ui.get p) s).1)
          (sort_set_justice_filter_fn env (u :: rest) (ui.get p) s).2).2.1.get p).map
        widget_unit_list.filter_func = some w.filter_func) ∧
    (∀ p : widget_path, ui.get p = some w →
      ((plugin_shutdown env (u :: rest)
          (ui.set p
            (sort_set_work_animal_assignment_filter_fn env (u :: rest) (ui.get p) s).1)
          (sort_set_work_animal_assignment_filter_fn env (u :: rest) (ui.get p) s).2
        ).2.1.get p).map widget_unit_list.filter_func = some w.filter_func) := by
  have hany := any_false_of_none _ hw
  refine ⟨?_, ?_, ?_⟩
  · intro hsel
    have h := plugin_shutdown_filter_func env hf u rest hu
      (sort_set_squad_filter_fn env (u :: rest) ui s).1
      (sort_set_squad_filter_fn env (u :: rest) ui s).2 widget_path.unit_selector
    simp only [ui_state.get] at h
    rw [h, squad_install_fst env hf u rest hu ui w s hsel, hany]
    simp [ui_state.set, without_first_ours_append _ _ hw (rfl : is_ours filter_fn.squad = true)]
  · intro p hp
    rw [plugin_shutdown_filter_func env hf u rest hu, ui_get_set, hp,
      justice_install_fst env hf u rest hu, hany]
    simp [without_first_ours_append _ _ hw (rfl : is_ours filter_fn.justice = true)]
  · intro p hp
    rw [plugin_shutdown_filter_func env hf u rest hu, ui_get_set, hp,
      work_animal_install_fst env hf u rest hu, hany]
    simp [without_first_ours_append _ _ hw
      (rfl : is_ours filter_fn.work_animal = true)]

theorem install_then_shutdown_restores_filters_witness :
    (sort_set_squad_filter_fn quiet_env [7]
        (squad_only (widget_of [filter_fn.foreign 0, filter_fn.foreign 1]))
        idle_state).1.unit_selector.map widget_unit_list.filter_func
      = some [filter_fn.foreign 0, filter_fn.foreign 1, filter_fn.squad] ∧
    ((plugin_shutdown quiet_env [7]
        (sort_set_squad_filter_fn quiet_env [7]
          (squad_only (widget_of [filter_fn.foreign 0, filter_fn.foreign 1]))
          idle_state).1
        (sort_set_squad_filter_fn quiet_env [7]
          (squad_only (widget_of [filter_fn.foreign 0, filter_fn.foreign 1]))
          idle_state).2).2.1.unit_selector).map widget_unit_list.filter_func
      = some [filter_fn.foreign 0, filter_fn.foreign 1] :=
  ⟨by decide,
   (install_then_shutdown_restores_filters quiet_env 7 []
      (squad_only (widget_of [filter_fn.foreign 0, filter_fn.foreign 1]))
      (widget_of [filter_fn.foreign 0, filter_fn.foreign 1]) idle_state
      quiet_env_keeps_flags (by decide) (by decide)).1 rfl⟩

/-! ## Installing twice -/

theorem countP_eq_one_of_any (fs : List filter_fn) (hany : fs.any is_ours = true)
    (hle : fs.countP is_ours ≤ 1) : fs.countP is_ours = 1 := by
  have hpos : 0 < fs.countP is_ours := by
    rw [List.countP_pos_iff]
    simpa using hany
  omega

theorem countP_append_ours (fs : List filter_fn) (fn : filter_fn)
    (hany : fs.any is_ours = false) (hfn : is_ours fn = true) :
    (fs ++ [fn]).countP is_ours = 1 := by
  have hfs : ∀ x ∈ fs, is_ours x = false := by
    simpa [List.any_eq_false] using hany
  rw [List.countP_append, countP_of_none _ hfs]
  simp [hfn]

/-- C4, as stated, fails: with no active unit a present widget with an empty filter
sequence is left alone by both calls of each install, so that none of the callbacks of
this plugin is in the sequence afterwards. -/
theorem filter_install_twice_without_units_installs_nothing :
    ((sort_set_squad_filter_fn quiet_env []
        (sort_set_squad_filter_fn quiet_env [] (squad_only (widget_of [])) idle_state).1
        (sort_set_squad_filter_fn quiet_env [] (squad_only (widget_of [])) idle_state).2
      ).1.unit_selector.map (fun w => w.filter_func.countP is_ours) = some 0) ∧
    ((sort_set_justice_filter_fn quiet_env []
        (sort_set_justice_filter_fn quiet_env [] (some (widget_of [])) idle_state).1
        (sort_set_justice_filter_fn quiet_env [] (some (widget_of [])) idle_state).2
      ).1.map (fun w => w.filter_func.countP is_ours) = some 0) ∧
    ((sort_set_work_animal_assignment_filter_fn quiet_env []
        (sort_set_work_animal_assignment_filter_fn quiet_env [] (some (widget_of []))
          idle_state).1
        (sort_set_work_animal_assignment_filter_fn quiet_env [] (some (widget_of []))
          idle_state).2
      ).1.map (fun w => w.filter_func.countP is_ours) = some 0) := by
  decide

/-- C4, amended: when the first active unit is not null, the foreign slots keep the probe
flags and the filter sequence of a present widget holds at most one callback of this
plugin, two calls in succession of the same filter install leave exactly one callback of
this plugin in the sequence, and the second call changes nothing in the widget. -/
theorem filter_install_twice (env : host_env) (u : Nat) (rest : List Nat)
    (ui : ui_state) (w : widget_unit_list) (s : plugin_state)
    (hf : foreign_keeps_flags env) (hu : u ≠ 0)
    (hw : w.filter_func.countP is_ours ≤ 1) :
    (ui.unit_selector = some w →
      (sort_set_squad_filter_fn env (u :: rest)
          (sort_set_squad_filter_fn env (u :: rest) ui s).1
          (sort_set_squad_filter_fn env (u :: rest) ui s).2).1 =
        (sort_set_squad_filter_fn env (u :: rest) ui s).1 ∧
      (sort_set_squad_filter_fn env (u :: rest)
          (sort_set_squad_filter_fn env (u :: rest) ui s).1
          (sort_set_squad_filter_fn env (u :: rest) ui s).2).1.unit_selector.map
        (fun w1 => w1.filter_func.countP is_ours) = some 1) ∧
    ((sort_set_justice_filter_fn env (u :: rest)
          (sort_set_justice_filter_fn env (u :: rest) (some w) s).1
          (sort_set_justice_filter_fn env (u :: rest) (some w) s).2).1 =
        (sort_set_justice_filter_fn env (u :: rest) (some w) s).1 ∧
      (sort_set_justice_filter_fn env (u :: rest)
          (sort_set_justice_filter_fn env (u :: rest) (some w) s).1
          (sort_set_justice_filter_fn env (u :: rest) (some w) s).2).1.map
        (fun w1 => w1.filter_func.countP is_ours) = some 1) ∧
    ((sort_set_work_animal_assignment_filter_fn env (u :: rest)
          (sort_set_work_animal_assignment_filter_fn env (u :: rest) (some w) s).1
          (sort_set_work_animal_assignment_filter_fn env (u :: rest) (some w) s).2).1 =
        (sort_set_work_animal_assignment_filter_fn env (u :: rest) (some w) s).1 ∧
      (sort_set_work_animal_assignment_filter_fn env (u :: rest)
          (sort_set_work_animal_assignment_filter_fn env (u :: rest) (some w) s).1
          (sort_set_work_animal_assignment_filter_fn env (u :: rest) (some w) s).2).1.map
        (fun w1 => w1.filter_func.countP is_ours) = some 1) := by
  refine ⟨?_, ?_, ?_⟩
  · intro hsel
    cases hany : w.filter_func.any is_ours with
    | true =>
      have h1 := squad_install_fst env hf u rest hu ui w s hsel
      rw [hany, if_pos rfl] at h1
      rw [h1, squad_install_fst env hf u rest hu ui w _ hsel, hany]
      simp [hsel, countP_eq_one_of_any _ hany hw]
    | false =>
      have h1 := squad_install_fst env hf u rest hu ui w s hsel
      rw [hany] at h1
      simp only [Bool.false_eq_true, if_false] at h1
      rw [h1, squad_install_fst env hf u rest hu _ _ _ rfl]
      have hc := countP_append_ours _ filter_fn.squad hany rfl
      simp [ui_state.set, is_ours, hc]
  · cases hany : w.filter_func.any is_ours with
    | true =>
      have h1 := justice_install_fst env hf u rest hu w s
      rw [hany, if_pos rfl] at h1
      rw [h1, justice_install_fst env hf u rest hu, hany]
      simp [countP_eq_one_of_any _ hany hw]
    | false =>
      have h1 := justice_install_fst env hf u rest hu w s
      rw [hany] at h1
      simp only [Bool.false_eq_true, if_false] at h1
      rw [h1, justice_install_fst env hf u rest hu]
      have hc := countP_append_ours _ filter_fn.justice hany rfl
      simp [is_ours, hc]
  · cases hany : w.filter_func.any is_ours with
    | true =>
      have h1 := work_animal_install_fst env hf u rest hu w s
      rw [hany, if_pos rfl] at h1
      rw [h1, work_animal_install_fst env hf u rest hu, hany]
      simp [countP_eq_one_of_any _ hany hw]
    | false =>
      have h1 := work_animal_install_fst env hf u rest hu w s
      rw [hany] at h1
      simp only [Bool.false_eq_true, if_false] at h1
      rw [h1, work_animal_install_fst env hf u rest hu]
      have hc := countP_append_ours _ filter_fn.work_animal hany rfl
      simp [is_ours, hc]

theorem filter_install_twice_witness :
    (sort_set_justice_filter_fn quiet_env [7]
        (sort_set_justice_filter_fn quiet_env [7]
          (some (widget_of [filter_fn.foreign 0])) idle_state).1
        (sort_set_justice_filter_fn quiet_env [7]
          (some (widget_of [filter_fn.foreign 0])) idle_state).2).1.map
      (fun w1 => w1.filter_func.countP is_ours) = some 1 :=
  (filter_install_twice quiet_env 7 [] no_widgets (widget_of [filter_fn.foreign 0])
    idle_state quiet_env_keeps_flags (by decide) (by decide)).2.1.2

/-! ## At most one callback per widget -/

theorem probe_loop_fst_ge (env : host_env) (u : Nat) :
    ∀ (fs : List filter_fn) (idx : Int) (s : plugin_state),
      idx ≤ (probe_loop env u fs idx s).1 := by
  intro fs
  induction fs with
  | nil => intro idx s; simp [probe_loop]
  | cons fn rest ih =>
    intro idx s
    simp only [probe_loop]
    split
    · exact Int.le_refl idx
    · have := ih (idx + 1) (call_filter env fn ⟨u, false⟩ s).2
      omega

/-- When no foreign slot changes `probing`, the loop of the probe cannot pass a slot of
this plugin without `probe_result` being set. -/
theorem probe_loop_finds (env : host_env) (hp : foreign_keeps_probing env) (u : Nat) :
    ∀ (fs : List filter_fn) (idx : Int) (s : plugin_state),
      s.probing = true → fs.any is_ours = true →
      (probe_loop env u fs idx s).2.probe_result = true := by
  intro fs
  induction fs with
  | nil => intro idx s _ hany; simp at hany
  | cons fn rest ih =>
    intro idx s hs hany
    simp only [probe_loop]
    split
    · assumption
    · rename_i hres
      cases hfn : is_ours fn with
      | true =>
        rw [call_filter_ours_probing env fn u s hfn hs] at hres
        simp at hres
      | false =>
        have hrest : rest.any is_ours = true := by simpa [hfn] using hany
        have hs1 : (call_filter env fn ⟨u, false⟩ s).2.probing = true := by
          cases fn with
          | foreign id => simpa [call_filter, hs] using hp id ⟨u, false⟩ s
          | squad => simp [is_ours] at hfn
          | justice => simp [is_ours] at hfn
          | work_animal => simp [is_ours] at hfn
        exact ih (idx + 1) _ hs1 hrest

/-- When no foreign slot changes `probing`, the answer `-1` of `our_filter_idx` is given
only for a sequence without a callback of this plugin. -/
theorem our_filter_idx_not_found (env : host_env) (hp : foreign_keeps_probing env)
    (active : List Nat) (w : widget_unit_list) (s : plugin_state)
    (h : (our_filter_idx env active w s).1 = -1) : w.filter_func.any is_ours = false := by
  cases active with
  | nil => simp [our_filter_idx] at h
  | cons u rest =>
    by_cases hu : u = 0
    · simp [our_filter_idx, hu] at h
    · cases hany : w.filter_func.any is_ours with
      | false => rfl
      | true =>
        have hfound := probe_loop_finds env hp u w.filter_func 0
          { s with probing := true, probe_result := false } rfl hany
        have hge := probe_loop_fst_ge env u w.filter_func 0
          { s with probing := true, probe_result := false }
        simp only [our_filter_idx, if_neg hu, hfound, if_true] at h
        omega

theorem ui_get_set_of_ne (ui : ui_state) (p q : widget_path) (o : Option widget_unit_list)
    (h : q ≠ p) : (ui.set p o).get q = ui.get q := by
  cases p <;> cases q <;> first | rfl | exact absurd rfl h

theorem at_most_one_ours_set (ui : ui_state) (p : widget_path)
    (o : Option widget_unit_list) (hui : at_most_one_ours ui)
    (ho : ∀ w, o = some w → w.filter_func.countP is_ours ≤ 1) :
    at_most_one_ours (ui.set p o) := by
  intro q w hq
  by_cases hqp : q = p
  · subst hqp
    rw [ui_get_set] at hq
    exact ho w hq
  · rw [ui_get_set_of_ne ui p q o hqp] at hq
    exact hui q w hq

theorem squad_install_at_most_one (env : host_env) (hp : foreign_keeps_probing env)
    (active : List Nat) (ui : ui_state) (s : plugin_state) (hui : at_most_one_ours ui) :
    at_most_one_ours (sort_set_squad_filter_fn env active ui s).1 := by
  unfold sort_set_squad_filter_fn get_squad_unit_list
  cases hsel : ui.unit_selector with
  | none => exact hui
  | some w =>
    simp only
    split
    · rename_i hidx
      have hany := our_filter_idx_not_found env hp active w s hidx
      refine at_most_one_ours_set ui widget_path.unit_selector _ hui ?_
      intro w1 hw1
      cases hw1
      exact Nat.le_of_eq (countP_append_ours _ filter_fn.squad hany rfl)
    · exact hui

theorem justice_install_at_most_one (env : host_env) (hp : foreign_keeps_probing env)
    (active : List Nat) (o : Option widget_unit_list) (s : plugin_state)
    (ho : ∀ w, o = some w → w.filter_func.countP is_ours ≤ 1) :
    ∀ w, (sort_set_justice_filter_fn env active o s).1 = some w →
      w.filter_func.countP is_ours ≤ 1 := by
  cases o with
  | none => intro w hw; simp [sort_set_justice_filter_fn] at hw
  | some w0 =>
    intro w hw
    simp only [sort_set_justice_filter_fn] at hw
    split at hw
    · rename_i hidx
      have hany := our_filter_idx_not_found env hp active w0 s hidx
      cases hw
      exact Nat.le_of_eq (countP_append_ours _ filter_fn.justice hany rfl)
    · cases hw
      exact ho _ rfl

theorem work_animal_install_at_most_one (env : host_env) (hp : foreign_keeps_probing env)
    (active : List Nat) (o : Option widget_unit_list) (s : plugin_state)
    (ho : ∀ w, o = some w → w.filter_func.countP is_ours ≤ 1) :
    ∀ w, (sort_set_work_animal_assignment_filter_fn env active o s).1 = some w →
      w.filter_func.countP is_ours ≤ 1 := by
  cases o with
  | none => intro w hw; simp [sort_set_work_animal_assignment_filter_fn] at hw
  | some w0 =>
    intro w hw
    simp only [sort_set_work_animal_assignment_filter_fn] at hw
    split at hw
    · rename_i hidx
      have hany := our_filter_idx_not_found env hp active w0 s hidx
      cases hw
      exact Nat.le_of_eq (countP_append_ours _ filter_fn.work_animal hany rfl)
    · cases hw
      exact ho _ rfl

theorem remove_filter_function_countP_le (env : host_env) (active : List Nat)
    (w : widget_unit_list) (s : plugin_state) :
    (remove_filter_function env active w s).1.filter_func.countP is_ours ≤
      w.filter_func.countP is_ours := by
  simp only [remove_filter_function]
  split
  · exact List.Sublist.countP_le _ (vector_erase_at_sublist _ _)
  · exact Nat.le_refl _

theorem step_at_most_one (env : host_env) (hp : foreign_keeps_probing env)
    (st : process) (c : api_call) (hst : at_most_one_ours st.ui) :
    at_most_one_ours (step env st c).ui := by
  cases c with
  | set_squad_filter_fn =>
    exact squad_install_at_most_one env hp st.active st.ui st.plugin hst
  | set_justice_filter_fn p =>
    exact at_most_one_ours_set st.ui p _ hst
      (justice_install_at_most_one env hp st.active _ st.plugin (hst p))
  | set_work_animal_assignment_filter_fn p =>
    exact at_most_one_ours_set st.ui p _ hst
      (work_animal_install_at_most_one env hp st.active _ st.plugin (hst p))
  | remove_filter p =>
    simp only [step]
    cases hget : st.ui.get p with
    | none => exact hst
    | some w =>
      refine at_most_one_ours_set st.ui p _ hst ?_
      intro w1 hw1
      cases hw1
      exact Nat.le_trans (remove_filter_function_countP_le env st.active w st.plugin)
        (hst p w hget)
  | active_units active => exact hst

theorem run_at_most_one (env : host_env) (hp : foreign_keeps_probing env)
    (calls : List api_call) :
    ∀ st : process, at_most_one_ours st.ui → at_most_one_ours (run env st calls).ui := by
  induction calls with
  | nil => intro st hst; exact hst
  | cons c rest ih =>
    intro st hst
    exact ih (step env st c) (step_at_most_one env hp st c hst)

/-- C5, as stated, fails: the squad list holds one foreign slot and none of the callbacks
of this plugin, and that slot leaves `probing` cleared, as a slot does that starts a
probe of its own.  The first squad install appends the callback; in the probe of the
second install the callback is invoked with `probing` cleared, calls the scripting layer
instead of identifying itself, and the install appends a second callback. -/
theorem second_callback_installed_behind_reentrant_slot :
    (∀ fn ∈ (widget_of [filter_fn.foreign 9]).filter_func, is_ours fn = false) ∧
    (run reentrant_env ⟨squad_only (widget_of [filter_fn.foreign 9]), [7], idle_state⟩
        [api_call.set_squad_filter_fn]).ui.unit_selector.map widget_unit_list.filter_func
      = some [filter_fn.foreign 9, filter_fn.squad] ∧
    (run reentrant_env ⟨squad_only (widget_of [filter_fn.foreign 9]), [7], idle_state⟩
        [api_call.set_squad_filter_fn, api_call.set_squad_filter_fn]
      ).ui.unit_selector.map widget_unit_list.filter_func
      = some [filter_fn.foreign 9, filter_fn.squad, filter_fn.squad] ∧
    [filter_fn.foreign 9, filter_fn.squad, filter_fn.squad].countP is_ours = 2 := by
  decide

/-- C5, amended: when no foreign slot starts a probe of its own (none changes `probing`), a
process whose open widgets hold none of the filter callbacks of this plugin keeps, after
any finite sequence of the three filter installs, of `remove_filter_function` and of
changes of the active units (empty or not), at most one filter callback of this plugin
(squad, justice or work-animal) in the filter sequence of each open widget. -/
theorem at_most_one_filter_callback_reachable (env : host_env) (st : process)
    (calls : List api_call) (hp : foreign_keeps_probing env)
    (h0 : ∀ (p : widget_path) (w : widget_unit_list), st.ui.get p = some w →
      ∀ fn ∈ w.filter_func, is_ours fn = false) :
    ∀ (p : widget_path) (w : widget_unit_list), (run env st calls).ui.get p = some w →
      w.filter_func.countP is_ours ≤ 1 := by
  have hst : at_most_one_ours st.ui := by
    intro p w hget
    rw [countP_of_none _ (h0 p w hget)]
    exact Nat.zero_le 1
  exact run_at_most_one env hp calls st hst

theorem at_most_one_filter_callback_reachable_witness :
    (run quiet_env ⟨squad_only (widget_of [filter_fn.foreign 0]), [], idle_state⟩
        [api_call.set_squad_filter_fn, api_call.active_units [7],
         api_call.set_justice_filter_fn widget_path.unit_selector,
         api_call.set_squad_filter_fn,
         api_call.set_work_animal_assignment_filter_fn widget_path.unit_selector,
         api_call.active_units [],
         api_call.remove_filter widget_path.unit_selector,
         api_call.active_units [7],
         api_call.set_squad_filter_fn]).ui.get widget_path.unit_selector =
      some ⟨[filter_fn.foreign 0, filter_fn.squad], [], [], ⟨true, 0⟩⟩ ∧
    (widget_unit_list.mk [filter_fn.foreign 0, filter_fn.squad] [] []
      ⟨true, 0⟩).filter_func.countP is_ours ≤ 1 :=
  ⟨by decide,
    at_most_one_filter_callback_reachable quiet_env
      ⟨squad_only (widget_of [filter_fn.foreign 0]), [], idle_state⟩
      [api_call.set_squad_filter_fn, api_call.active_units [7],
       api_call.set_justice_filter_fn widget_path.unit_selector,
       api_call.set_squad_filter_fn,
       api_call.set_work_animal_assignment_filter_fn widget_path.unit_selector,
       api_call.active_units [],
       api_call.remove_filter widget_path.unit_selector,
       api_call.active_units [7],
       api_call.set_squad_filter_fn]
      (fun _ _ _ => rfl)
      (by
        intro p w hget
        cases p <;> simp [ui_state.get, squad_only] at hget
        subst hget
        decide)
      widget_path.unit_selector _ (by decide)⟩

/-! ## Correctness of the probe -/

/-- C6: when the first active unit is not null and the foreign slots keep the probe
flags, `our_filter_idx` answers the position of the first slot that is a callback of this
plugin, whatever the foreign slots before it answer; it answers `-1` exactly when the
sequence holds no such callback; and a position it answers always holds a callback of
this plugin, never a foreign slot. -/
theorem our_filter_idx_finds_first_callback (env : host_env) (u : Nat) (rest : List Nat)
    (w : widget_unit_list) (s : plugin_state)
    (hf : foreign_keeps_flags env) (hu : u ≠ 0) :
    (∀ (pre post : List filter_fn) (fn : filter_fn),
      w.filter_func = pre ++ fn :: post → (∀ x ∈ pre, is_ours x = false) →
      is_ours fn = true →
      (our_filter_idx env (u :: rest) w s).1 = (pre.length : Int)) ∧
    ((our_filter_idx env (u :: rest) w s).1 = -1 ↔
      ∀ x ∈ w.filter_func, is_ours x = false) ∧
    (∀ i : Nat, (our_filter_idx env (u :: rest) w s).1 = (i : Int) →
      (w.filter_func[i]?).map is_ours = some true) := by
  refine ⟨?_, ?_, ?_⟩
  · intro pre post fn hdec hpre hfn
    have hany : w.filter_func.any is_ours = true := by simp [hdec, hfn]
    have hidx : w.filter_func.findIdx is_ours = pre.length := by
      rw [hdec, List.findIdx_append, List.findIdx_eq_length_of_false hpre]
      simp [List.findIdx_cons, hfn]
    rw [our_filter_idx_of_any env hf u rest hu w s hany, hidx]
  · constructor
    · intro h
      cases hany : w.filter_func.any is_ours with
      | true => exact absurd h (our_filter_idx_ne_of_any env hf u rest hu w s hany)
      | false => simpa [List.any_eq_false] using hany
    · intro h
      exact our_filter_idx_of_none env hf u rest hu w s h
  · intro i hi
    cases hany : w.filter_func.any is_ours with
    | false =>
      have hnone : ∀ x ∈ w.filter_func, is_ours x = false := by
        simpa [List.any_eq_false] using hany
      rw [our_filter_idx_of_none env hf u rest hu w s hnone] at hi
      omega
    | true =>
      rw [our_filter_idx_of_any env hf u rest hu w s hany] at hi
      have hi' : w.filter_func.findIdx is_ours = i := by exact_mod_cast hi
      have hlt := findIdx_lt_of_any w.filter_func hany
      rw [← hi', List.getElem?_eq_getElem hlt]
      simp [List.findIdx_getElem]

theorem our_filter_idx_finds_first_callback_witness :
    (our_filter_idx picky_env [7, 0]
      (widget_of [filter_fn.foreign 0, filter_fn.foreign 1, filter_fn.justice,
        filter_fn.foreign 2, filter_fn.squad]) idle_state).1 = 2 ∧
    (our_filter_idx quiet_env [7, 0]
      (widget_of [filter_fn.foreign 0, filter_fn.foreign 1, filter_fn.justice,
        filter_fn.foreign 2, filter_fn.squad]) idle_state).1 = 2 :=
  ⟨(our_filter_idx_finds_first_callback picky_env 7 [0]
      (widget_of [filter_fn.foreign 0, filter_fn.foreign 1, filter_fn.justice,
        filter_fn.foreign 2, filter_fn.squad]) idle_state
      (fun _ _ _ => ⟨rfl, rfl⟩) (by decide)).1
      [filter_fn.foreign 0, filter_fn.foreign 1] [filter_fn.foreign 2, filter_fn.squad]
      filter_fn.justice rfl (by decide) rfl,
   by decide⟩

/-! ## The predicate bridge -/

/-- C7: for an element that is not the sentinel (`elem.second = false`) and outside a
probe, `do_filter` answers the negation of the boolean answered by the scripting layer,
and so do the three filter callbacks, each for its own function of the scripting
layer. -/
theorem do_filter_negates_answer (env : host_env) (elem : item_or_unit)
    (s : plugin_state) (hs : elem.second = false) (hp : s.probing = false) :
    (∀ (module_name fn_name : String) (r : Bool),
      env.lua module_name fn_name [elem.first] = some r →
      (do_filter env module_name fn_name elem s).1 = !r) ∧
    (∀ r : Bool, env.lua "plugins.sort" "do_squad_filter" [elem.first] = some r →
      (do_squad_filter env elem s).1 = !r) ∧
    (∀ r : Bool, env.lua "plugins.sort.info" "do_justice_filter" [elem.first] = some r →
      (do_justice_filter env elem s).1 = !r) ∧
    (∀ r : Bool,
      env.lua "plugins.sort.info" "do_work_animal_assignment_filter" [elem.first] = some r →
      (do_work_animal_assignment_filter env elem s).1 = !r) := by
  refine ⟨?_, ?_, ?_, ?_⟩
  · intro m f r hr
    simp [do_filter, hs, hp, hr]
  · intro r hr
    simp [do_squad_filter, do_filter, hs, hp, hr]
  · intro r hr
    simp [do_justice_filter, do_filter, hs, hp, hr]
  · intro r hr
    simp [do_work_animal_assignment_filter, do_filter, hs, hp, hr]

theorem do_filter_negates_answer_witness :
    (do_squad_filter quiet_env ⟨7, false⟩ idle_state).1 = false ∧
    (do_squad_filter picky_env ⟨7, false⟩ idle_state).1 = true :=
  ⟨(do_filter_negates_answer quiet_env ⟨7, false⟩ idle_state rfl rfl).2.1 true rfl,
   (do_filter_negates_answer picky_env ⟨7, false⟩ idle_state rfl rfl).2.1 false rfl⟩

/-- C8: for the sentinel (`elem.second = true`), in every state of the probe flags,
`do_filter` and each of the three filter callbacks answer `true` and leave the state as
it was: the flags `probing` and `probe_result` are unchanged and no call into the
scripting layer is recorded. -/
theorem do_filter_sentinel (env : host_env) (elem : item_or_unit) (s : plugin_state)
    (hs : elem.second = true) :
    (∀ module_name fn_name : String,
      do_filter env module_name fn_name elem s = (true, s)) ∧
    do_squad_filter env elem s = (true, s) ∧
    do_justice_filter env elem s = (true, s) ∧
    do_work_animal_assignment_filter env elem s = (true, s) := by
  refine ⟨?_, ?_, ?_, ?_⟩ <;>
    simp [do_squad_filter, do_justice_filter, do_work_animal_assignment_filter,
      do_filter, hs]

theorem do_filter_sentinel_witness :
    do_justice_filter picky_env ⟨7, true⟩ ⟨true, false, []⟩ = (true, ⟨true, false, []⟩) ∧
    do_justice_filter picky_env ⟨0, true⟩ idle_state = (true, idle_state) :=
  ⟨(do_filter_sentinel picky_env ⟨7, true⟩ ⟨true, false, []⟩ rfl).2.2.1,
   (do_filter_sentinel picky_env ⟨0, true⟩ idle_state rfl).2.2.1⟩

/-- C9: `sort_proxy` agrees with its reference definition.  If either argument is the
sentinel it answers `true` and records no call into the scripting layer; otherwise it
makes the one call `do_sort` of `plugins.sort` on the two units and answers what the
external comparator answered, without inversion. -/
theorem sort_proxy_eq_reference (env : host_env) (compare : Nat → Nat → Bool)
    (a b : item_or_unit) (s : plugin_state)
    (hc : env.lua "plugins.sort" "do_sort" [a.first, b.first] =
      some (compare a.first b.first)) :
    (sort_proxy env a b s).1 = sort_proxy_reference compare a b ∧
    (a.second = true ∨ b.second = true → sort_proxy env a b s = (true, s)) ∧
    (a.second = false → b.second = false →
      sort_proxy env a b s =
        (compare a.first b.first,
          { s with lua_calls :=
              s.lua_calls ++ [⟨"plugins.sort", "do_sort", [a.first, b.first]⟩] })) := by
  refine ⟨?_, ?_, ?_⟩
  · cases ha : a.second <;> cases hb : b.second <;>
      simp [sort_proxy, sort_proxy_reference, ha, hb, hc]
  · intro h
    rcases h with h | h <;> simp [sort_proxy, h]
  · intro ha hb
    simp [sort_proxy, ha, hb, hc]

theorem sort_proxy_eq_reference_witness :
    (sort_proxy quiet_env ⟨7, false⟩ ⟨8, false⟩ idle_state).1 = true ∧
    (sort_proxy picky_env ⟨7, false⟩ ⟨8, false⟩ idle_state).1 = false ∧
    sort_proxy picky_env ⟨7, true⟩ ⟨8, false⟩ idle_state = (true, idle_state) :=
  ⟨(sort_proxy_eq_reference quiet_env (fun _ _ => true) ⟨7, false⟩ ⟨8, false⟩
      idle_state rfl).1,
   (sort_proxy_eq_reference picky_env (fun _ _ => false) ⟨7, false⟩ ⟨8, false⟩
      idle_state rfl).1,
   (sort_proxy_eq_reference picky_env (fun _ _ => false) ⟨7, true⟩ ⟨8, false⟩
      idle_state rfl).2.1 (Or.inl rfl)⟩

/-! ## The tag of the sort entry -/

/-- The scan from counter `k` either meets no entry with the tag and answers `-1`, or
answers `k + i` for the least position `i` of an entry with the tag. -/
theorem our_sort_idx_from_spec :
    ∀ (l : List sort_entry) (k : Nat),
      (our_sort_idx_from l k = -1 ∧ ∀ e ∈ l, e.ident ≠ DFHACK_SORT_IDENT) ∨
      (∃ i : Nat, our_sort_idx_from l k = ((k + i : Nat) : Int) ∧ i < l.length ∧
        (l[i]?).map sort_entry.ident = some DFHACK_SORT_IDENT ∧
        ∀ j < i, (l[j]?).map sort_entry.ident ≠ some DFHACK_SORT_IDENT) := by
  intro l
  induction l with
  | nil => intro k; left; simp [our_sort_idx_from]
  | cons e rest ih =>
    intro k
    by_cases he : e.ident = DFHACK_SORT_IDENT
    · right
      refine ⟨0, ?_, ?_, ?_, ?_⟩
      · simp [our_sort_idx_from, he]
      · simp
      · simp [he]
      · intro j hj; omega
    · rcases ih (k + 1) with ⟨h1, h2⟩ | ⟨i, h1, h2, h3, h4⟩
      · left
        refine ⟨?_, ?_⟩
        · simp [our_sort_idx_from, he, h1]
        · intro x hx
          rcases List.mem_cons.mp hx with rfl | hx
          · exact he
          · exact h2 x hx
      · right
        refine ⟨i + 1, ?_, ?_, ?_, ?_⟩
        · simp only [our_sort_idx_from, he, if_false, h1]
          push_cast; ring
        · simp; omega
        · simpa using h3
        · intro j hj
          cases j with
          | zero => simpa using he
          | succ j => simpa using h4 j (by omega)

/-- C10: `our_sort_idx` answers the position `i` exactly when the entry at `i` carries
the tag `dfhack_sort` and no entry before it does; it answers `-1` exactly when no entry
carries the tag; and its answer is `-1` or a valid position of the sequence. -/
theorem our_sort_idx_least_tagged (sorting_by : List sort_entry) :
    (∀ i : Nat, our_sort_idx sorting_by = (i : Int) ↔
      ((sorting_by[i]?).map sort_entry.ident = some DFHACK_SORT_IDENT ∧
       ∀ j < i, (sorting_by[j]?).map sort_entry.ident ≠ some DFHACK_SORT_IDENT)) ∧
    (our_sort_idx sorting_by = -1 ↔ ∀ e ∈ sorting_by, e.ident ≠ DFHACK_SORT_IDENT) ∧
    (our_sort_idx sorting_by = -1 ∨
      ∃ i : Nat, our_sort_idx sorting_by = (i : Int) ∧ i < sorting_by.length) := by
  have hmem : ∀ (i : Nat),
      (sorting_by[i]?).map sort_entry.ident = some DFHACK_SORT_IDENT →
      ∃ e ∈ sorting_by, e.ident = DFHACK_SORT_IDENT := by
    intro i hi
    cases hget : sorting_by[i]? with
    | none => simp [hget] at hi
    | some e =>
      refine ⟨e, List.getElem?_mem hget, ?_⟩
      simpa [hget] using hi
  unfold our_sort_idx
  rcases our_sort_idx_from_spec sorting_by 0 with ⟨h1, h2⟩ | ⟨i0, h1, h2, h3, h4⟩
  · refine ⟨?_, ?_, Or.inl h1⟩
    · intro i
      rw [h1]
      constructor
      · intro h; omega
      · rintro ⟨hi, _⟩
        obtain ⟨e, he, hid⟩ := hmem i hi
        exact absurd hid (h2 e he)
    · exact ⟨fun _ => h2, fun _ => h1⟩
  · simp only [Nat.zero_add] at h1
    refine ⟨?_, ?_, Or.inr ⟨i0, h1, h2⟩⟩
    · intro i
      rw [h1]
      constructor
      · intro h
        have : i0 = i := by exact_mod_cast h
        subst this
        exact ⟨h3, h4⟩
      · rintro ⟨hi, hlt⟩
        rcases Nat.lt_trichotomy i i0 with h | h | h
        · exact absurd hi (h4 i h)
        · rw [h]
        · exact absurd h3 (hlt i0 h)
    · rw [h1]
      constructor
      · intro h; omega
      · intro h
        obtain ⟨e, he, hid⟩ := hmem i0 h3
        exact absurd hid (h e he)

theorem our_sort_idx_least_tagged_witness :
    our_sort_idx [host_sort_entry 0, host_sort_entry 1, do_sort, host_sort_entry 2,
      do_sort] = 2 ∧
    our_sort_idx [host_sort_entry 0, host_sort_entry 1] = -1 :=
  ⟨((our_sort_idx_least_tagged [host_sort_entry 0, host_sort_entry 1, do_sort,
      host_sort_entry 2, do_sort]).1 2).mpr (by decide),
   by decide⟩

/-! ## Installing the sort entry -/

theorem sort_set_sort_fn_present (ui : ui_state) (w : widget_unit_list)
    (hsel : ui.unit_selector = some w) :
    sort_set_sort_fn ui =
      ui.set widget_path.unit_selector
        (some { filter_func := w.filter_func,
                partitions := w.partitions,
                sorting_by := [do_sort],
                sort_flags := ⟨true, w.sort_flags.rest⟩ }) := by
  simp [sort_set_sort_fn, get_squad_unit_list, hsel, ui_state.set]

theorem sort_set_sort_fn_absent (ui : ui_state) (hsel : ui.unit_selector = none) :
    sort_set_sort_fn ui = ui := by
  simp [sort_set_sort_fn, get_squad_unit_list, hsel]

/-- C11, as stated, fails: `sort_set_sort_fn` drops the entry of the host that the squad
list held, instead of keeping it before the appended entry; and a sequence that already
holds an entry tagged `dfhack_sort`, followed by an entry of the host, is not left
unchanged but cut down to the one entry of this plugin. -/
theorem sort_install_drops_host_entries :
    (sort_set_sort_fn (squad_only (widget_sorting [host_sort_entry 0]))).unit_selector.map
        widget_unit_list.sorting_by = some [do_sort] ∧
    [do_sort] ≠ [host_sort_entry 0, do_sort] ∧
    (∃ e ∈ [do_sort, host_sort_entry 1], e.ident = DFHACK_SORT_IDENT) ∧
    (sort_set_sort_fn
        (squad_only (widget_sorting [do_sort, host_sort_entry 1]))).unit_selector.map
        widget_unit_list.sorting_by = some [do_sort] ∧
    [do_sort] ≠ [do_sort, host_sort_entry 1] := by
  decide

/-- C11, amended: `sort_set_sort_fn` makes no check.  For every present squad widget it
empties the sort-entry sequence and appends the entry of this plugin, so that the
sequence afterwards is exactly that one entry, and it sets `NEEDS_RESORTED`; the filter
and partition sequences stay.  The sequence is unchanged exactly when it was already that
one entry, and it is the old sequence with the entry appended exactly when the old
sequence was empty; no other entry is kept. -/
theorem sort_install_replaces_entries (ui : ui_state) (w : widget_unit_list)
    (hsel : ui.unit_selector = some w) :
    (sort_set_sort_fn ui).unit_selector =
      some { filter_func := w.filter_func,
             partitions := w.partitions,
             sorting_by := [do_sort],
             sort_flags := ⟨true, w.sort_flags.rest⟩ } ∧
    ((sort_set_sort_fn ui).unit_selector.map widget_unit_list.sorting_by =
        some w.sorting_by ↔ w.sorting_by = [do_sort]) ∧
    ((sort_set_sort_fn ui).unit_selector.map widget_unit_list.sorting_by =
        some (w.sorting_by ++ [do_sort]) ↔ w.sorting_by = []) ∧
    (∀ p : widget_path, p ≠ widget_path.unit_selector →
      (sort_set_sort_fn ui).get p = ui.get p) := by
  rw [sort_set_sort_fn_present ui w hsel]
  refine ⟨rfl, ?_, ?_, ?_⟩
  · simp only [ui_state.set, Option.map_some', Option.some.injEq]
    exact eq_comm
  · simp only [ui_state.set, Option.map_some', Option.some.injEq]
    constructor
    · intro h
      have hlen := congrArg List.length h
      simp at hlen
      exact hlen
    · intro h
      rw [h]
      rfl
  · intro p hp
    exact ui_get_set_of_ne ui _ p _ hp

theorem sort_install_replaces_entries_witness :
    (sort_set_sort_fn
        (squad_only (widget_sorting [host_sort_entry 0, host_sort_entry 1]))).unit_selector =
      some { filter_func := [],
             partitions := [],
             sorting_by := [do_sort],
             sort_flags := ⟨true, 0⟩ } :=
  (sort_install_replaces_entries
    (squad_only (widget_sorting [host_sort_entry 0, host_sort_entry 1]))
    (widget_sorting [host_sort_entry 0, host_sort_entry 1]) rfl).1

/-! ## Asking whether the sort entry is installed -/

theorem remove_filter_function_sorting_by (env : host_env) (active : List Nat)
    (w : widget_unit_list) (s : plugin_state) :
    (remove_filter_function env active w s).1.sorting_by = w.sorting_by := by
  simp only [remove_filter_function]
  split <;> rfl

/-- The squad list after `plugin_shutdown`: the filter callback is removed first, then
the sort entry. -/
theorem plugin_shutdown_unit_selector (env : host_env) (active : List Nat)
    (ui : ui_state) (s : plugin_state) :
    (plugin_shutdown env active ui s).2.1.unit_selector =
      ui.unit_selector.map
        (fun w => remove_sort_function (remove_filter_function env active w s).1) := by
  simp only [plugin_shutdown, get_squad_unit_list]
  cases ui.unit_selector <;> rfl

theorem our_sort_idx_do_sort : our_sort_idx [do_sort] = 0 := by
  decide

theorem our_sort_idx_nil : our_sort_idx [] = -1 := by
  decide

theorem remove_sort_function_single (w : widget_unit_list)
    (hw : w.sorting_by = [do_sort]) : (remove_sort_function w).sorting_by = [] := by
  simp [remove_sort_function, hw, our_sort_idx_do_sort, vector_erase_at]

/-- C12: for every present squad widget, whatever its sort-entry sequence held,
`sort_get_sort_active` answers `true` right after `sort_set_sort_fn` and `false` after a
`plugin_shutdown` that follows; it answers `false` on a widget with an empty sort-entry
sequence and when the widget is absent. -/
theorem sort_active_after_install_and_shutdown (env : host_env) (active : List Nat)
    (ui : ui_state) (s : plugin_state) :
    (∀ w : widget_unit_list, ui.unit_selector = some w →
      sort_get_sort_active (sort_set_sort_fn ui) = true ∧
      sort_get_sort_active (plugin_shutdown env active (sort_set_sort_fn ui) s).2.1
        = false) ∧
    (∀ w : widget_unit_list, ui.unit_selector = some w → w.sorting_by = [] →
      sort_get_sort_active ui = false) ∧
    (ui.unit_selector = none → sort_get_sort_active ui = false) := by
  refine ⟨?_, ?_, ?_⟩
  · intro w hsel
    rw [sort_set_sort_fn_present ui w hsel]
    refine ⟨?_, ?_⟩
    · simp [sort_get_sort_active, get_squad_unit_list, ui_state.set,
        our_sort_idx_do_sort]
    · simp only [sort_get_sort_active, get_squad_unit_list,
        plugin_shutdown_unit_selector, ui_state.set, Option.map_some']
      rw [remove_sort_function_single _
        (by rw [remove_filter_function_sorting_by])]
      simp [our_sort_idx_nil]
  · intro w hsel hw
    simp [sort_get_sort_active, get_squad_unit_list, hsel, hw, our_sort_idx_nil]
  · intro hsel
    simp [sort_get_sort_active, get_squad_unit_list, hsel]

theorem sort_active_after_install_and_shutdown_witness :
    sort_get_sort_active (squad_only (widget_sorting [])) = false ∧
    sort_get_sort_active (sort_set_sort_fn (squad_only (widget_sorting []))) = true ∧
    sort_get_sort_active
      (plugin_shutdown quiet_env [7] (sort_set_sort_fn (squad_only (widget_sorting [])))
        idle_state).2.1 = false :=
  ⟨(sort_active_after_install_and_shutdown quiet_env [7]
      (squad_only (widget_sorting [])) idle_state).2.1 (widget_sorting []) rfl rfl,
   ((sort_active_after_install_and_shutdown quiet_env [7]
      (squad_only (widget_sorting [])) idle_state).1 (widget_sorting []) rfl).1,
   ((sort_active_after_install_and_shutdown quiet_env [7]
      (squad_only (widget_sorting [])) idle_state).1 (widget_sorting []) rfl).2⟩

/-- C13: two calls of `sort_set_sort_fn` in succession leave the interface in the state
that one call leaves it in, and for a present squad widget that state holds exactly one
sort entry tagged `dfhack_sort`. -/
theorem sort_install_twice (ui : ui_state) :
    sort_set_sort_fn (sort_set_sort_fn ui) = sort_set_sort_fn ui ∧
    (∀ w : widget_unit_list, ui.unit_selector = some w →
      (sort_set_sort_fn (sort_set_sort_fn ui)).unit_selector.map
        (fun w1 => w1.sorting_by.countP is_tagged) = some 1) := by
  cases hsel : ui.unit_selector with
  | none =>
    refine ⟨?_, ?_⟩
    · rw [sort_set_sort_fn_absent ui hsel, sort_set_sort_fn_absent ui hsel]
    · intro w hw
      cases hw
  | some w =>
    have h1 := sort_set_sort_fn_present ui w hsel
    have h2 := sort_set_sort_fn_present (sort_set_sort_fn ui) _
      (by rw [h1]; rfl)
    refine ⟨?_, ?_⟩
    · rw [h2, h1]
      rfl
    · intro w0 _
      rw [h2]
      simp only [ui_state.set, Option.map_some', Option.some.injEq]
      decide

theorem sort_install_twice_witness :
    (sort_set_sort_fn (sort_set_sort_fn
        (squad_only (widget_sorting [host_sort_entry 0, do_sort, do_sort])))
      ).unit_selector.map (fun w1 => w1.sorting_by.countP is_tagged) = some 1 :=
  (sort_install_twice
    (squad_only (widget_sorting [host_sort_entry 0, do_sort, do_sort]))).2
    (widget_sorting [host_sort_entry 0, do_sort, do_sort]) rfl

/-! ## The partitions of the squad list -/

/-- C14, as stated, fails: a call of `sort_set_squad_filter_fn` that is skipped leaves
the partitions in place, both when there is no active unit and when the callback is
already installed. -/
theorem squad_install_skipped_keeps_partitions :
    (sort_set_squad_filter_fn quiet_env []
        (squad_only ⟨[filter_fn.foreign 0], [filter_fn.foreign 5], [], ⟨false, 0⟩⟩)
        idle_state).1.unit_selector.map widget_unit_list.partitions
      = some [filter_fn.foreign 5] ∧
    (sort_set_squad_filter_fn quiet_env [7]
        (squad_only ⟨[filter_fn.squad], [filter_fn.foreign 5], [], ⟨false, 0⟩⟩)
        idle_state).1.unit_selector.map widget_unit_list.partitions
      = some [filter_fn.foreign 5] := by
  decide

/-- C14, amended: for every present squad widget, a call of `sort_set_squad_filter_fn`
that installs the callback (the probe answers `-1`, as it does with a first active unit
that is not null, foreign slots that keep the probe flags and no callback of this plugin
in the sequence) leaves the partition sequence empty, and a call that is skipped leaves
the interface as it was; `sort_set_sort_fn` alone, and the justice and work-animal
installs, leave the partition sequence unchanged. -/
theorem partitions_after_installs (env : host_env) (active : List Nat) (ui : ui_state)
    (w : widget_unit_list) (s : plugin_state) (hsel : ui.unit_selector = some w) :
    ((our_filter_idx env active w s).1 = -1 →
      (sort_set_squad_filter_fn env active ui s).1.unit_selector.map
        widget_unit_list.partitions = some []) ∧
    ((our_filter_idx env active w s).1 ≠ -1 →
      (sort_set_squad_filter_fn env active ui s).1 = ui) ∧
    (∀ (u : Nat) (rest : List Nat), active = u :: rest → u ≠ 0 →
      foreign_keeps_flags env → (∀ fn ∈ w.filter_func, is_ours fn = false) →
      (sort_set_squad_filter_fn env active ui s).1.unit_selector.map
        widget_unit_list.partitions = some []) ∧
    (sort_set_sort_fn ui).unit_selector.map widget_unit_list.partitions
      = some w.partitions ∧
    (sort_set_justice_filter_fn env active (some w) s).1.map widget_unit_list.partitions
      = some w.partitions ∧
    (sort_set_work_animal_assignment_filter_fn env active (some w) s).1.map
        widget_unit_list.partitions = some w.partitions := by
  have hinst : (our_filter_idx env active w s).1 = -1 →
      (sort_set_squad_filter_fn env active ui s).1.unit_selector.map
        widget_unit_list.partitions = some [] := by
    intro hidx
    simp [sort_set_squad_filter_fn, get_squad_unit_list, hsel, hidx]
  refine ⟨hinst, ?_, ?_, ?_, ?_, ?_⟩
  · intro hidx
    simp [sort_set_squad_filter_fn, get_squad_unit_list, hsel, hidx]
  · intro u rest hact hu hf hw
    subst hact
    exact hinst (our_filter_idx_of_none env hf u rest hu w s hw)
  · rw [sort_set_sort_fn_present ui w hsel]
    rfl
  · simp only [sort_set_justice_filter_fn]
    split <;> rfl
  · simp only [sort_set_work_animal_assignment_filter_fn]
    split <;> rfl

theorem partitions_after_installs_witness :
    (sort_set_squad_filter_fn quiet_env [7]
        (squad_only ⟨[filter_fn.foreign 0], [filter_fn.foreign 5], [], ⟨false, 0⟩⟩)
        idle_state).1.unit_selector.map widget_unit_list.partitions = some [] ∧
    (sort_set_sort_fn
        (squad_only ⟨[filter_fn.foreign 0], [filter_fn.foreign 5], [], ⟨false, 0⟩⟩)
      ).unit_selector.map widget_unit_list.partitions = some [filter_fn.foreign 5] :=
  ⟨(partitions_after_installs quiet_env [7]
      (squad_only ⟨[filter_fn.foreign 0], [filter_fn.foreign 5], [], ⟨false, 0⟩⟩)
      ⟨[filter_fn.foreign 0], [filter_fn.foreign 5], [], ⟨false, 0⟩⟩ idle_state rfl).2.2.1
      7 [] rfl (by decide) quiet_env_keeps_flags (by decide),
   (partitions_after_installs quiet_env [7]
      (squad_only ⟨[filter_fn.foreign 0], [filter_fn.foreign 5], [], ⟨false, 0⟩⟩)
      ⟨[filter_fn.foreign 0], [filter_fn.foreign 5], [], ⟨false, 0⟩⟩ idle_state
      rfl).2.2.2.1⟩

/-! ## No sentinel unit -/

/-- C15: when the active units are empty or the first of them is null, each of the three
filter installs is skipped: whatever the host does when a slot is invoked, the call
returns the widget (filter, partition and sort-entry sequences and the resort flag) and
the state of the process exactly as they were, and the probe makes no invocation. -/
theorem filter_install_skipped_without_sentinel (env : host_env) (active : List Nat)
    (ui : ui_state) (unitlist : Option widget_unit_list) (s : plugin_state)
    (h : active.head? = none ∨ active.head? = some 0) :
    sort_set_squad_filter_fn env active ui s = (ui, s) ∧
    sort_set_justice_filter_fn env active unitlist s = (unitlist, s) ∧
    sort_set_work_animal_assignment_filter_fn env active unitlist s = (unitlist, s) ∧
    (∀ w : widget_unit_list, our_filter_idx_calls env active w s = []) := by
  refine ⟨?_, ?_, ?_, ?_⟩
  · simp only [sort_set_squad_filter_fn, get_squad_unit_list]
    cases ui.unit_selector with
    | none => rfl
    | some w => simp [our_filter_idx_no_unit env active h]
  · cases unitlist with
    | none => rfl
    | some w => simp [sort_set_justice_filter_fn, our_filter_idx_no_unit env active h]
  · cases unitlist with
    | none => rfl
    | some w =>
      simp [sort_set_work_animal_assignment_filter_fn,
        our_filter_idx_no_unit env active h]
  · intro w
    cases active with
    | nil => rfl
    | cons u rest =>
      have hu : u = 0 := by simpa using h
      simp [our_filter_idx_calls, hu]

theorem filter_install_skipped_without_sentinel_witness :
    sort_set_squad_filter_fn picky_env []
        (squad_only ⟨[filter_fn.foreign 0], [filter_fn.foreign 5], [host_sort_entry 1],
          ⟨false, 3⟩⟩) idle_state
      = (squad_only ⟨[filter_fn.foreign 0], [filter_fn.foreign 5], [host_sort_entry 1],
          ⟨false, 3⟩⟩, idle_state) ∧
    sort_set_justice_filter_fn picky_env [0, 7] (some (widget_of [filter_fn.foreign 0]))
        idle_state
      = (some (widget_of [filter_fn.foreign 0]), idle_state) :=
  ⟨(filter_install_skipped_without_sentinel picky_env []
      (squad_only ⟨[filter_fn.foreign 0], [filter_fn.foreign 5], [host_sort_entry 1],
        ⟨false, 3⟩⟩) none idle_state (Or.inl rfl)).1,
   (filter_install_skipped_without_sentinel picky_env [0, 7] no_widgets
      (some (widget_of [filter_fn.foreign 0])) idle_state (Or.inr rfl)).2.1⟩

/-! ## Clean shutdown -/

theorem countP_eraseIdx_findIdx {α : Type} (p : α → Bool) :
    ∀ l : List α, (l.eraseIdx (l.findIdx p)).countP p = l.countP p - 1 := by
  intro l
  induction l with
  | nil => simp
  | cons a rest ih =>
    cases hpa : p a with
    | true => simp [List.findIdx_cons, hpa, List.countP_cons]
    | false => simp [List.findIdx_cons, hpa, List.countP_cons, ih]

theorem without_first_ours_countP (fs : List filter_fn)
    (h : fs.countP is_ours ≤ 1) : (without_first_ours fs).countP is_ours = 0 := by
  unfold without_first_ours
  split
  · rw [countP_eraseIdx_findIdx]
    omega
  · rename_i hany
    have hnone : ∀ x ∈ fs, is_ours x = false := by
      simpa [List.any_eq_false] using hany
    exact countP_of_none fs hnone

/-- The scan of the sort entries in terms of the first tagged entry. -/
theorem our_sort_idx_from_eq :
    ∀ (l : List sort_entry) (k : Nat),
      our_sort_idx_from l k =
        if l.any is_tagged then ((k + l.findIdx is_tagged : Nat) : Int) else -1 := by
  intro l
  induction l with
  | nil => intro k; simp [our_sort_idx_from]
  | cons e rest ih =>
    intro k
    by_cases he : e.ident = DFHACK_SORT_IDENT
    · simp [our_sort_idx_from, he, is_tagged, List.findIdx_cons]
    · have hfalse : is_tagged e = false := by simp [is_tagged, he]
      simp only [our_sort_idx_from, he, if_false, ih (k + 1), List.any_cons, hfalse,
        Bool.false_or, List.findIdx_cons, cond_false]
      split
      · congr 1
        omega
      · rfl

theorem remove_sort_function_sorting_by (w : widget_unit_list) :
    (remove_sort_function w).sorting_by =
      if w.sorting_by.any is_tagged then
        w.sorting_by.eraseIdx (w.sorting_by.findIdx is_tagged)
      else w.sorting_by := by
  simp only [remove_sort_function, our_sort_idx, our_sort_idx_from_eq, Nat.zero_add]
  cases hany : w.sorting_by.any is_tagged with
  | false => simp
  | true =>
    have hlt : w.sorting_by.findIdx is_tagged < w.sorting_by.length := by
      apply List.findIdx_lt_length_of_exists
      simpa using hany
    simp [vector_erase_at, hlt]

theorem remove_sort_function_countP (w : widget_unit_list)
    (h : w.sorting_by.countP is_tagged ≤ 1) :
    (remove_sort_function w).sorting_by.countP is_tagged = 0 := by
  rw [remove_sort_function_sorting_by]
  split
  · rw [countP_eraseIdx_findIdx]
    omega
  · rename_i hany
    rw [List.countP_eq_zero]
    intro e he
    have hall : ∀ x ∈ w.sorting_by, is_tagged x = false := by
      simpa [List.any_eq_false] using hany
    simp [hall e he]

/-- A widget is present after `plugin_shutdown` exactly where it was present before. -/
theorem plugin_shutdown_get_eq_none (env : host_env) (active : List Nat) (ui : ui_state)
    (s : plugin_state) (p : widget_path) :
    (plugin_shutdown env active ui s).2.1.get p = none ↔ ui.get p = none := by
  cases p
  · simp only [ui_state.get, plugin_shutdown_unit_selector]
    cases ui.unit_selector <;> simp
  all_goals
    simp only [plugin_shutdown, ui_state.get, shutdown_filter,
      get_interrogate_unit_list, get_convict_unit_list,
      get_work_animal_assignment_unit_list]
    split <;> simp_all

/-- C16: when every present widget holds at most one filter callback of this plugin and
the squad list at most one entry tagged `dfhack_sort`, the first active unit is not null
and the foreign slots keep the probe flags, then after `plugin_shutdown` no widget
present at one of the six paths holds a filter callback of this plugin, the sort-entry
sequence of the squad list holds no entry tagged `dfhack_sort`, a path without a widget
is skipped and stays without one, and the result is `CR_OK`. -/
theorem plugin_shutdown_clean (env : host_env) (u : Nat) (rest : List Nat)
    (ui : ui_state) (s : plugin_state)
    (hf : foreign_keeps_flags env) (hu : u ≠ 0) (h1 : at_most_one_ours ui)
    (h2 : ∀ w : widget_unit_list, ui.unit_selector = some w →
      w.sorting_by.countP is_tagged ≤ 1) :
    (plugin_shutdown env (u :: rest) ui s).1 = command_result.CR_OK ∧
    (∀ (p : widget_path) (w1 : widget_unit_list),
      (plugin_shutdown env (u :: rest) ui s).2.1.get p = some w1 →
      ∀ fn ∈ w1.filter_func, is_ours fn = false) ∧
    (∀ w1 : widget_unit_list,
      (plugin_shutdown env (u :: rest) ui s).2.1.unit_selector = some w1 →
      ∀ e ∈ w1.sorting_by, e.ident ≠ DFHACK_SORT_IDENT) ∧
    (∀ p : widget_path,
      ui.get p = none ↔ (plugin_shutdown env (u :: rest) ui s).2.1.get p = none) := by
  refine ⟨rfl, ?_, ?_, ?_⟩
  · intro p w1 hget fn hfn
    have hmap := plugin_shutdown_filter_func env hf u rest hu ui s p
    rw [hget] at hmap
    cases hui : ui.get p with
    | none => simp [hui] at hmap
    | some w =>
      simp only [hui, Option.map_some', Option.some.injEq] at hmap
      have hcount := without_first_ours_countP w.filter_func (h1 p w hui)
      rw [← hmap, List.countP_eq_zero] at hcount
      simpa using hcount fn hfn
  · intro w1 hget e he
    rw [plugin_shutdown_unit_selector] at hget
    cases hui : ui.unit_selector with
    | none => simp [hui] at hget
    | some w =>
      simp only [hui, Option.map_some', Option.some.injEq] at hget
      have hle : (remove_filter_function env (u :: rest) w s).1.sorting_by.countP
          is_tagged ≤ 1 := by
        rw [remove_filter_function_sorting_by]
        exact h2 w hui
      have hcount := remove_sort_function_countP _ hle
      rw [hget, List.countP_eq_zero] at hcount
      simpa [is_tagged] using hcount e he
  · intro p
    exact (plugin_shutdown_get_eq_none env (u :: rest) ui s p).symm

theorem plugin_shutdown_clean_witness :
    (plugin_shutdown quiet_env [7]
        ⟨some ⟨[filter_fn.foreign 0, filter_fn.squad, filter_fn.foreign 1], [],
            [host_sort_entry 0, do_sort], ⟨true, 0⟩⟩,
          none, some (widget_of [filter_fn.justice]), none, none,
          some (widget_of [filter_fn.foreign 2])⟩ idle_state).2.1
      = ⟨some ⟨[filter_fn.foreign 0, filter_fn.foreign 1], [], [host_sort_entry 0],
            ⟨true, 0⟩⟩,
          none, some (widget_of []), none, none,
          some (widget_of [filter_fn.foreign 2])⟩ ∧
    (plugin_shutdown quiet_env [7]
        ⟨some ⟨[filter_fn.foreign 0, filter_fn.squad, filter_fn.foreign 1], [],
            [host_sort_entry 0, do_sort], ⟨true, 0⟩⟩,
          none, some (widget_of [filter_fn.justice]), none, none,
          some (widget_of [filter_fn.foreign 2])⟩ idle_state).1
      = command_result.CR_OK :=
  ⟨by decide,
   (plugin_shutdown_clean quiet_env 7 []
      ⟨some ⟨[filter_fn.foreign 0, filter_fn.squad, filter_fn.foreign 1], [],
          [host_sort_entry 0, do_sort], ⟨true, 0⟩⟩,
        none, some (widget_of [filter_fn.justice]), none, none,
        some (widget_of [filter_fn.foreign 2])⟩ idle_state
      quiet_env_keeps_flags (by decide)
      (by
        intro p w hget
        cases p <;> simp [ui_state.get] at hget <;> subst hget <;> decide)
      (by
        intro w hw
        simp at hw
        subst hw
        decide)).1⟩

/-! ## The probe returns to idle -/

theorem our_filter_idx_probing (env : host_env) (active : List Nat)
    (w : widget_unit_list) (s : plugin_state) (hs : s.probing = false) :
    (our_filter_idx env active w s).2.probing = false := by
  cases active with
  | nil => exact hs
  | cons u rest =>
    by_cases hu : u = 0
    · simpa [our_filter_idx, hu] using hs
    · simp [our_filter_idx, hu]

theorem remove_filter_function_probing (env : host_env) (active : List Nat)
    (w : widget_unit_list) (s : plugin_state) (hs : s.probing = false) :
    (remove_filter_function env active w s).2.probing = false := by
  simp only [remove_filter_function]
  split <;> exact our_filter_idx_probing env active w s hs

theorem shutdown_filter_probing (env : host_env) (active : List Nat)
    (o : Option widget_unit_list) (s : plugin_state) (hs : s.probing = false) :
    (shutdown_filter env active o s).2.probing = false := by
  cases o with
  | none => exact hs
  | some w => exact remove_filter_function_probing env active w s hs

theorem plugin_shutdown_probing (env : host_env) (active : List Nat) (ui : ui_state)
    (s : plugin_state) (hs : s.probing = false) :
    (plugin_shutdown env active ui s).2.2.probing = false := by
  simp only [plugin_shutdown]
  apply shutdown_filter_probing
  apply shutdown_filter_probing
  apply shutdown_filter_probing
  apply shutdown_filter_probing
  apply shutdown_filter_probing
  cases get_squad_unit_list ui with
  | none => exact hs
  | some w => exact remove_filter_function_probing env active w s hs

theorem squad_install_probing (env : host_env) (active : List Nat) (ui : ui_state)
    (s : plugin_state) (hs : s.probing = false) :
    (sort_set_squad_filter_fn env active ui s).2.probing = false := by
  simp only [sort_set_squad_filter_fn]
  cases get_squad_unit_list ui with
  | none => exact hs
  | some w =>
    simp only
    split <;> exact our_filter_idx_probing env active w s hs

theorem justice_install_probing (env : host_env) (active : List Nat)
    (o : Option widget_unit_list) (s : plugin_state) (hs : s.probing = false) :
    (sort_set_justice_filter_fn env active o s).2.probing = false := by
  cases o with
  | none => exact hs
  | some w =>
    simp only [sort_set_justice_filter_fn]
    split <;> exact our_filter_idx_probing env active w s hs

theorem work_animal_install_probing (env : host_env) (active : List Nat)
    (o : Option widget_unit_list) (s : plugin_state) (hs : s.probing = false) :
    (sort_set_work_animal_assignment_filter_fn env active o s).2.probing = false := by
  cases o with
  | none => exact hs
  | some w =>
    simp only [sort_set_work_animal_assignment_filter_fn]
    split <;> exact our_filter_idx_probing env active w s hs

theorem step_probing (env : host_env) (st : process) (c : api_call)
    (hs : st.plugin.probing = false) : (step env st c).plugin.probing = false := by
  cases c with
  | set_squad_filter_fn => exact squad_install_probing env st.active st.ui st.plugin hs
  | set_justice_filter_fn p => exact justice_install_probing env st.active _ st.plugin hs
  | set_work_animal_assignment_filter_fn p =>
    exact work_animal_install_probing env st.active _ st.plugin hs
  | remove_filter p =>
    simp only [step]
    cases st.ui.get p with
    | none => exact hs
    | some w => exact remove_filter_function_probing env st.active w st.plugin hs
  | active_units active => exact hs

theorem run_probing (env : host_env) (calls : List api_call) :
    ∀ st : process, st.plugin.probing = false →
      (run env st calls).plugin.probing = false := by
  induction calls with
  | nil => intro st hs; exact hs
  | cons c rest ih =>
    intro st hs
    exact ih (step env st c) (step_probing env st c hs)

/-- C17: a call of `our_filter_idx` that starts with `probing` cleared returns with
`probing` cleared, for every filter sequence and every list of active units, whether a
slot is found or not and whatever the slots do.  Hence `probing` stays cleared across the
installs, `remove_filter_function`, `plugin_shutdown` and any sequence of such
operations; and with `probing` cleared `do_filter` does not identify itself: it leaves
`probe_result` as it is and, for an element that is not the sentinel, makes the call into
the scripting layer and answers the negation of `ret`. -/
theorem probing_cleared_between_operations (env : host_env) (active : List Nat)
    (s : plugin_state) (hs : s.probing = false) :
    (∀ w : widget_unit_list, (our_filter_idx env active w s).2.probing = false) ∧
    (∀ w : widget_unit_list,
      (remove_filter_function env active w s).2.probing = false) ∧
    (∀ ui : ui_state,
      (sort_set_squad_filter_fn env active ui s).2.probing = false ∧
      (plugin_shutdown env active ui s).2.2.probing = false) ∧
    (∀ unitlist : Option widget_unit_list,
      (sort_set_justice_filter_fn env active unitlist s).2.probing = false ∧
      (sort_set_work_animal_assignment_filter_fn env active unitlist s).2.probing
        = false) ∧
    (∀ (ui : ui_state) (calls : List api_call),
      (run env ⟨ui, active, s⟩ calls).plugin.probing = false) ∧
    (∀ (module_name fn_name : String) (elem : item_or_unit),
      (do_filter env module_name fn_name elem s).2.probing = false ∧
      (do_filter env module_name fn_name elem s).2.probe_result = s.probe_result ∧
      (elem.second = false →
        (do_filter env module_name fn_name elem s).2.lua_calls =
          s.lua_calls ++ [⟨module_name, fn_name, [elem.first]⟩])) := by
  refine ⟨?_, ?_, ?_, ?_, ?_, ?_⟩
  · intro w
    exact our_filter_idx_probing env active w s hs
  · intro w
    exact remove_filter_function_probing env active w s hs
  · intro ui
    exact ⟨squad_install_probing env active ui s hs,
      plugin_shutdown_probing env active ui s hs⟩
  · intro o
    exact ⟨justice_install_probing env active o s hs,
      work_animal_install_probing env active o s hs⟩
  · intro ui calls
    exact run_probing env calls ⟨ui, active, s⟩ hs
  · intro m f elem
    cases he : elem.second <;> simp [do_filter, he, hs]

theorem probing_cleared_between_operations_witness :
    (our_filter_idx picky_env [7]
      (widget_of [filter_fn.foreign 0, filter_fn.squad]) idle_state).2.probing = false ∧
    (our_filter_idx picky_env [7]
      (widget_of [filter_fn.foreign 0]) idle_state).2.probing = false ∧
    (our_filter_idx picky_env [] (widget_of [filter_fn.squad]) idle_state).2.probing
      = false :=
  ⟨(probing_cleared_between_operations picky_env [7] idle_state rfl).1 _,
   (probing_cleared_between_operations picky_env [7] idle_state rfl).1 _,
   (probing_cleared_between_operations picky_env [] idle_state rfl).1 _⟩

/-! ## The invocations of a probe -/

/-- The state in which the loop of the probe ends is the state left by the last
invocation listed by `probe_calls`. -/
theorem probe_loop_snd_eq_calls (env : host_env) (u : Nat) :
    ∀ (fs : List filter_fn) (idx : Int) (s : plugin_state),
      (probe_loop env u fs idx s).2 =
        (probe_calls env u fs s).foldl
          (fun _ c => (call_filter env c.1 ⟨u, false⟩ c.2).2) s := by
  intro fs
  induction fs with
  | nil => intro idx s; rfl
  | cons fn rest ih =>
    intro idx s
    simp only [probe_loop, probe_calls, List.foldl_cons]
    split
    · rfl
    · exact ih (idx + 1) _

end SortPlugin
